import Mathlib

/-!
# Verification of the RumiAI timeline feature-extraction and validation subsystem

This file is a shallow embedding, in Lean 4, of the deterministic core of the
RumiAI repository: the ML-data validator (`services/ml_data_validator.py`), the
data-integrity consistency / suspicious-pattern checks
(`test_ml_data_integrity.py`), and the metric engines of
`run_video_prompts_validated_v2.py` (creative density, emotional journey,
scene pacing, speech analysis).

Modelling conventions:
* Python `dict`s are association lists in insertion order (JSON objects have
  distinct keys; `dict(...)` construction is modelled by `pyDictOfPairs`).
* Python numbers are modelled by `ℚ` (ints embed), exact arithmetic standing
  in for IEEE floats.  `round(x, n)` calls, which the source applies only for
  display, are not embedded: embedded numeric fields hold the exact
  pre-rounding value.
* Where the source computes a square root (`statistics.stdev`,
  coefficient-of-variation), the embedded structure carries the exact
  radicand (the variance); comparisons of the form `sqrt v < c` are embedded
  by the equivalent sign-aware squared comparison, and the few genuinely
  real-valued derived quantities are separate `ℝ`-valued definitions.
* Fallible Python code (statements that can raise) is embedded in
  `Except String`; a bare `try/except: continue` around a loop body is
  embedded by skipping entries whose processing fails.
-/

/-! ## Python string and number primitives -/

/-- Digits of a decimal numeral to a natural number; `none` unless the
character list is nonempty and all characters are decimal digits. -/
def digitsToNat? : List Char → Option ℕ
  | [] => none
  | cs =>
    if cs.all Char.isDigit then
      some (cs.foldl (fun acc c => acc * 10 + (c.toNat - '0'.toNat)) 0)
    else none

/-- Python `int(s)` on a string: optional surrounding whitespace, optional
sign, then a nonempty run of decimal digits; `none` models a raised
`ValueError`. -/
def pyIntOfStr? (s : String) : Option ℤ :=
  let cs := ((s.toList.dropWhile Char.isWhitespace).reverse.dropWhile
    Char.isWhitespace).reverse
  match cs with
  | '-' :: rest => (digitsToNat? rest).map (fun n => -(n : ℤ))
  | '+' :: rest => (digitsToNat? rest).map (fun n => (n : ℤ))
  | rest => (digitsToNat? rest).map (fun n => (n : ℤ))

/-- Python `s.split(sep)` for a single-character separator: split at every
occurrence, keeping empty pieces (`"".split('-') == ['']`). -/
def splitOnChar (sep : Char) : List Char → List (List Char)
  | [] => [[]]
  | c :: rest =>
    let r := splitOnChar sep rest
    if c = sep then [] :: r
    else
      match r with
      | [] => [[c]]
      | h :: t => (c :: h) :: t

/-- Python `s.split(sep)` for a single-character separator. -/
def pySplit (s : String) (sep : Char) : List String :=
  (splitOnChar sep s.toList).map String.mk

/-- First piece of `s.split('-')` (the list is never empty). -/
def splitDashHead (s : String) : String :=
  match pySplit s '-' with
  | [] => s
  | p :: _ => p

/-- `parse_timestamp_to_seconds` (run_video_prompts_validated_v2.py:18):
`int(timestamp.split('-')[0])`, with the bare `except` returning `None`. -/
def parseTimestampToSeconds (timestamp : String) : Option ℤ :=
  pyIntOfStr? (splitDashHead timestamp)

/-- Python `int(q)` on a number: truncation toward zero
(`num.tdiv den` since the denominator is positive). -/
def pyTrunc (q : ℚ) : ℤ :=
  Int.tdiv q.num q.den

/-- Whitespace tokenisation with an accumulator for the current word
(in reverse). -/
def wordsAux : List Char → List Char → List (List Char)
  | [], acc => if acc.isEmpty then [] else [acc.reverse]
  | c :: rest, acc =>
    if c.isWhitespace then
      if acc.isEmpty then wordsAux rest []
      else acc.reverse :: wordsAux rest []
    else wordsAux rest (c :: acc)

/-- Python `str.split()` with no arguments: split on whitespace runs,
dropping empty tokens. -/
def pyWords (s : String) : List String :=
  (wordsAux s.toList []).map String.mk

/-- Python `'c' in s` / substring containment test on character lists. -/
def hasInfix (hay needle : List Char) : Bool :=
  if needle.isPrefixOf hay then true
  else
    match hay with
    | [] => false
    | _ :: t => hasInfix t needle

theorem hasInfix_iff (hay needle : List Char) :
    hasInfix hay needle = true ↔ needle <:+: hay := by
  induction hay with
  | nil =>
    rw [hasInfix]
    by_cases hp : needle.isPrefixOf [] = true
    · rw [if_pos hp]
      simp only [true_iff]
      have : needle <+: [] := List.isPrefixOf_iff_prefix.mp hp
      exact this.isInfix
    · rw [if_neg hp]
      simp only [List.infix_nil, Bool.false_eq_true, false_iff]
      intro h
      subst h
      simp at hp
  | cons x t ih =>
    rw [hasInfix]
    by_cases hp : needle.isPrefixOf (x :: t) = true
    · rw [if_pos hp]
      simp only [true_iff]
      exact (List.isPrefixOf_iff_prefix.mp hp).isInfix
    · rw [if_neg hp]
      rw [ih, List.infix_cons_iff]
      constructor
      · exact Or.inr
      · rintro (h | h)
        · exact absurd (List.isPrefixOf_iff_prefix.mpr h) hp
        · exact h

/-- Python substring test `needle in hay` on strings. -/
def strContains (hay needle : String) : Bool :=
  hasInfix hay.toList needle.toList

/-- Python `s.lower()` (ASCII case folding suffices for this code base). -/
def pyLower (s : String) : String :=
  String.mk (s.toList.map Char.toLower)

/-- Helper for `everyNth`: `k` counts down to the next kept element. -/
def everyNthAux : List α → ℕ → ℕ → List α
  | [], _, _ => []
  | x :: xs, step, 0 => x :: everyNthAux xs step (step - 1)
  | _ :: xs, step, n + 1 => everyNthAux xs step n

/-- Python slice `l[::step]` for `step ≥ 1`: every `step`-th element. -/
def everyNth (l : List α) (step : ℕ) : List α :=
  everyNthAux l step 0

/-- Stable insertion of `x` into a sorted list: `x` goes in front of the
first element it is strictly `lt`-below, hence after all equals. -/
def insertStable (lt : α → α → Bool) (x : α) : List α → List α
  | [] => [x]
  | y :: ys => if lt x y then x :: y :: ys else y :: insertStable lt x ys

/-- Stable sort (Python `sorted` with a key function becomes
`sortStable (fun a b => key a < key b)`). -/
def sortStable (lt : α → α → Bool) (l : List α) : List α :=
  l.foldl (fun acc x => insertStable lt x acc) []

theorem length_insertStable (lt : α → α → Bool) (x : α) (l : List α) :
    (insertStable lt x l).length = l.length + 1 := by
  induction l with
  | nil => rfl
  | cons y ys ih =>
    rw [insertStable]
    split <;> simp [ih]

theorem length_sortStable (lt : α → α → Bool) (l : List α) :
    (sortStable lt l).length = l.length := by
  suffices h : ∀ acc : List α,
      (l.foldl (fun acc x => insertStable lt x acc) acc).length =
        acc.length + l.length by
    simpa using h []
  induction l with
  | nil => simp
  | cons x xs ih =>
    intro acc
    simp only [List.foldl_cons]
    rw [ih, length_insertStable]
    have hc : (x :: xs).length = xs.length + 1 := List.length_cons x xs
    omega

/-- Python `dict(pairs)`: first occurrence of a key fixes its position,
a later pair with the same key overwrites the value in place. -/
def pyDictInsert [DecidableEq K] (l : List (K × V)) (k : K) (v : V) :
    List (K × V) :=
  if l.any (fun p => p.1 = k) then
    l.map (fun p => if p.1 = k then (k, v) else p)
  else l ++ [(k, v)]

/-- Python `dict(pairs)` from an iterable of pairs. -/
def pyDictOfPairs [DecidableEq K] (l : List (K × V)) : List (K × V) :=
  l.foldl (fun acc p => pyDictInsert acc p.1 p.2) []

theorem length_pyDictInsert [DecidableEq K] (l : List (K × V)) (k : K) (v : V) :
    (pyDictInsert l k v).length ≤ l.length + 1 := by
  rw [pyDictInsert]
  split <;> simp

theorem length_pyDictOfPairs [DecidableEq K] (l : List (K × V)) :
    (pyDictOfPairs l).length ≤ l.length := by
  suffices h : ∀ acc : List (K × V),
      (l.foldl (fun acc p => pyDictInsert acc p.1 p.2) acc).length ≤
        acc.length + l.length by
    simpa using h []
  induction l with
  | nil => simp
  | cons x xs ih =>
    intro acc
    simp only [List.foldl_cons]
    calc (xs.foldl (fun acc p => pyDictInsert acc p.1 p.2)
            (pyDictInsert acc x.1 x.2)).length
        ≤ (pyDictInsert acc x.1 x.2).length + xs.length := ih _
      _ ≤ acc.length + 1 + xs.length :=
          Nat.add_le_add_right (length_pyDictInsert _ _ _) _
      _ ≤ acc.length + (x :: xs).length := by
          have hc : (x :: xs).length = xs.length + 1 := List.length_cons x xs
          omega

/-- First-match association-list lookup (Python `dict` access). -/
def alookup [DecidableEq K] (l : List (K × V)) (k : K) : Option V :=
  (l.find? (fun p => p.1 = k)).map Prod.snd

/-- Python `k in d` for a dict. -/
def dictHasKey [DecidableEq K] (l : List (K × V)) (k : K) : Bool :=
  l.any (fun p => p.1 = k)

/-- Mean of a list of rationals, `0` for the empty list
(the source's `mean` helper, run_video_prompts_validated_v2.py:39). -/
def listMean (values : List ℚ) : ℚ :=
  if values = [] then 0 else values.sum / values.length

/-- Sample variance `Σ (x - mean)² / (n - 1)` (`statistics.variance`),
`0` when fewer than two values (matching the guarded call sites). -/
def sampleVariance (values : List ℚ) : ℚ :=
  if values.length < 2 then 0
  else
    let m := listMean values
    (values.map (fun v => (v - m) ^ 2)).sum / (values.length - 1 : ℕ)

theorem length_everyNthAux {α : Type} (s : ℕ) (hs : 1 ≤ s) :
    ∀ (l : List α) (k : ℕ), k ≤ s - 1 →
      (everyNthAux l s k).length = (l.length + (s - 1 - k)) / s
  | [], k, hk => by
    rw [everyNthAux]
    simp only [List.length_nil, Nat.zero_add]
    exact (Nat.div_eq_of_lt (by omega)).symm
  | x :: xs, 0, _ => by
    rw [everyNthAux, List.length_cons, List.length_cons,
      length_everyNthAux s hs xs (s - 1) (by omega)]
    have h1 : s - 1 - (s - 1) = 0 := by omega
    have h2 : xs.length + 1 + (s - 1 - 0) = xs.length + s := by omega
    rw [h1, h2, Nat.add_div_right _ (by omega)]
    simp
  | x :: xs, k + 1, hk => by
    rw [everyNthAux, length_everyNthAux s hs xs k (by omega),
      List.length_cons]
    congr 1
    omega

theorem length_everyNth {α : Type} (s : ℕ) (hs : 1 ≤ s) (l : List α) :
    (everyNth l s).length = (l.length + s - 1) / s := by
  rw [everyNth, length_everyNthAux s hs l 0 (by omega)]
  congr 1
  omega

/-! ## JSON-shaped Python values

A Unified Analysis Document is a JSON-compatible Python object (§3 of the
spec; produced by `json.load`).  `J` models such values; object fields are
kept in insertion order with distinct keys (as produced by JSON parsing). -/

inductive J where
  | null : J
  | bool : Bool → J
  | num : ℚ → J
  | str : String → J
  | arr : List J → J
  | obj : List (String × J) → J

/-- The character `{` (0x7b). -/
def lbrace : Char := Char.ofNat 123

/-- The character `}` (0x7d). -/
def rbrace : Char := Char.ofNat 125

/-- Hexadecimal digit for `n < 16`. -/
def hexDigit (n : ℕ) : Char :=
  if n < 10 then Char.ofNat ('0'.toNat + n) else Char.ofNat ('a'.toNat + n - 10)

/-- `json.dumps` escaping of one character (default `ensure_ascii=True`):
quote and backslash get a backslash, control and non-ASCII characters
become `\uXXXX` (code points above 0xFFFF would use surrogate pairs in
Python; no string in this development leaves the BMP). -/
def escChar (c : Char) : List Char :=
  if c = '"' then ['\\', '"']
  else if c = '\\' then ['\\', '\\']
  else if c.toNat < 32 ∨ c.toNat > 126 then
    ['\\', 'u', hexDigit (c.toNat / 4096 % 16), hexDigit (c.toNat / 256 % 16),
      hexDigit (c.toNat / 16 % 16), hexDigit (c.toNat % 16)]
  else [c]

/-- `json.dumps` escaping of a string body. -/
def escString (s : String) : List Char :=
  s.toList.foldr (fun c acc => escChar c ++ acc) []

/-- `json.dumps` rendering of a string (quotes plus escaped body). -/
def dumpsStr (s : String) : List Char :=
  '"' :: escString s ++ ['"']

/-- Rendering of a number.  The exact digit sequence Python produces for a
float is irrelevant to every property proved here; what matters is that it
contains only digits, `-`, `.` and `/`, hence never a letter of any
suspicious pattern. -/
def dumpsNum (q : ℚ) : List Char :=
  (toString q.num).toList ++ (if q.den = 1 then [] else '/' :: (toString q.den).toList)

mutual

/-- `json.dumps` of a value (default separators `", "` and `": "`). -/
def dumpsJ : J → List Char
  | .null => "null".toList
  | .bool b => if b then "true".toList else "false".toList
  | .num q => dumpsNum q
  | .str s => dumpsStr s
  | .arr l => '[' :: dumpsArr l ++ [']']
  | .obj l => lbrace :: dumpsObj l ++ [rbrace]

/-- Comma-joined array elements. -/
def dumpsArr : List J → List Char
  | [] => []
  | [x] => dumpsJ x
  | x :: y :: xs => dumpsJ x ++ ',' :: ' ' :: dumpsArr (y :: xs)

/-- Comma-joined `"key": value` fields. -/
def dumpsObj : List (String × J) → List Char
  | [] => []
  | [(k, v)] => dumpsStr k ++ ':' :: ' ' :: dumpsJ v
  | (k, v) :: f :: xs => dumpsStr k ++ ':' :: ' ' :: dumpsJ v ++ ',' :: ' ' :: dumpsObj (f :: xs)

end

mutual

/-- Does the string `t` occur as a string value (leaf) inside `j`? -/
def hasLeafJ (t : String) : J → Bool
  | .str s => s = t
  | .arr l => hasLeafArr t l
  | .obj l => hasLeafObj t l
  | _ => false

/-- `hasLeafJ` over array elements. -/
def hasLeafArr (t : String) : List J → Bool
  | [] => false
  | x :: xs => hasLeafJ t x || hasLeafArr t xs

/-- `hasLeafJ` over object field values. -/
def hasLeafObj (t : String) : List (String × J) → Bool
  | [] => false
  | (_, v) :: xs => hasLeafJ t v || hasLeafObj t xs

end

theorem infix_of_wrap {l m : List Char} (c : Char) (r : List Char)
    (h : l <:+: m) : l <:+: c :: m ++ r := by
  rcases h with ⟨s, t, hst⟩
  exact ⟨c :: s, t ++ r, by simp [← hst]⟩

mutual

theorem dumpsJ_of_hasLeaf (t : String) :
    ∀ j : J, hasLeafJ t j = true → dumpsStr t <:+: dumpsJ j
  | .str s, h => by
    rw [hasLeafJ] at h
    have hst : s = t := by simpa using h
    subst hst
    rw [dumpsJ]
  | .arr l, h => by
    rw [hasLeafJ] at h
    rw [dumpsJ]
    exact infix_of_wrap '[' [']'] (dumpsArr_of_hasLeaf t l h)
  | .obj l, h => by
    rw [hasLeafJ] at h
    rw [dumpsJ]
    exact infix_of_wrap lbrace [rbrace] (dumpsObj_of_hasLeaf t l h)

theorem dumpsArr_of_hasLeaf (t : String) :
    ∀ l : List J, hasLeafArr t l = true → dumpsStr t <:+: dumpsArr l
  | [x], h => by
    rw [hasLeafArr] at h
    rw [dumpsArr]
    rcases Bool.or_eq_true_iff.mp h with h1 | h1
    · exact dumpsJ_of_hasLeaf t x h1
    · rw [hasLeafArr] at h1
      cases h1
  | x :: y :: xs, h => by
    rw [hasLeafArr] at h
    rw [dumpsArr]
    rcases Bool.or_eq_true_iff.mp h with h1 | h1
    · exact (dumpsJ_of_hasLeaf t x h1).trans ⟨[], ',' :: ' ' :: dumpsArr (y :: xs), rfl⟩
    · refine (dumpsArr_of_hasLeaf t (y :: xs) h1).trans ?_
      exact ⟨dumpsJ x ++ [',', ' '], [], by simp⟩

theorem dumpsObj_of_hasLeaf (t : String) :
    ∀ l : List (String × J), hasLeafObj t l = true → dumpsStr t <:+: dumpsObj l
  | [(k, v)], h => by
    rw [hasLeafObj] at h
    rw [dumpsObj]
    rcases Bool.or_eq_true_iff.mp h with h1 | h1
    · exact (dumpsJ_of_hasLeaf t v h1).trans ⟨dumpsStr k ++ [':', ' '], [], by simp⟩
    · rw [hasLeafObj] at h1
      cases h1
  | (k, v) :: f :: xs, h => by
    rw [hasLeafObj] at h
    rw [dumpsObj]
    rcases Bool.or_eq_true_iff.mp h with h1 | h1
    · exact (dumpsJ_of_hasLeaf t v h1).trans
        ⟨dumpsStr k ++ [':', ' '], ',' :: ' ' :: dumpsObj (f :: xs), by simp⟩
    · refine (dumpsObj_of_hasLeaf t (f :: xs) h1).trans ?_
      exact ⟨dumpsStr k ++ ':' :: ' ' :: dumpsJ v ++ [',', ' '], [], by simp⟩

end

/-! ## Python operations on JSON values

Each operation mirrors the CPython behaviour on the value shapes that can
occur in a JSON document; `Except String` models a raised exception. -/

/-- Exception-carrying Python computation. -/
abbrev PyEx := Except String

/-- `isinstance(j, dict)`. -/
def J.isObj : J → Bool
  | .obj _ => true
  | _ => false

/-- `j.items()`: only dicts have `.items`. -/
def jItems : J → PyEx (List (String × J))
  | .obj l => .ok l
  | _ => .error "AttributeError: items"

/-- `k in j`: key test for dicts, element equality for lists (a string only
ever equals a string), substring for strings; `TypeError` otherwise. -/
def jIn (k : String) : J → PyEx Bool
  | .obj l => .ok (dictHasKey l k)
  | .arr l => .ok (l.any (fun e => match e with | .str s => s = k | _ => false))
  | .str s => .ok (strContains s k)
  | _ => .error "TypeError: argument of this type is not iterable"

/-- `j[k]` for a string key: dict lookup (`KeyError` when absent),
`TypeError` for every other shape. -/
def jIndexKey (j : J) (k : String) : PyEx J :=
  match j with
  | .obj l =>
    match alookup l k with
    | some v => .ok v
    | none => .error ("KeyError: " ++ k)
  | _ => .error "TypeError: not subscriptable by a string"

/-- `j.get(k, d)`: only dicts have `.get`. -/
def jGetD (j : J) (k : String) (d : J) : PyEx J :=
  match j with
  | .obj l => .ok ((alookup l k).getD d)
  | _ => .error "AttributeError: get"

/-- `len(j)`: strings, lists and dicts are sized. -/
def jLen : J → PyEx ℕ
  | .str s => .ok s.length
  | .arr l => .ok l.length
  | .obj l => .ok l.length
  | _ => .error "TypeError: object has no len"

/-- `bool(j)` (never raises on JSON shapes). -/
def jTruthy : J → Bool
  | .null => false
  | .bool b => b
  | .num q => decide (q ≠ 0)
  | .str s => decide (s ≠ "")
  | .arr l => !l.isEmpty
  | .obj l => !l.isEmpty

/-- `j[:n]`: slicing is defined for strings and lists. -/
def jSlice (j : J) (n : ℕ) : PyEx J :=
  match j with
  | .str s => .ok (.str (String.mk (s.toList.take n)))
  | .arr l => .ok (.arr (l.take n))
  | _ => .error "TypeError: unsubscriptable object"

/-- Use of `j` in a numeric context (comparison/arithmetic with a number):
numbers stand for themselves, `True`/`False` for `1`/`0`; anything else is
a `TypeError`. -/
def jAsNum : J → PyEx ℚ
  | .num q => .ok q
  | .bool b => .ok (if b then 1 else 0)
  | _ => .error "TypeError: unsupported operand type"

/-- `str(q)` for a number (integral values render exactly; the precise float
rendering is irrelevant to every property proved here). -/
def pyStrNum (q : ℚ) : String :=
  if q.den = 1 then toString q.num
  else toString q.num ++ "/" ++ toString q.den

/-- `str(j)` as used inside f-strings of issue messages. -/
def pyStrJ : J → String
  | .null => "None"
  | .bool b => if b then "True" else "False"
  | .num q => pyStrNum q
  | .str s => s
  | .arr _ => "<list>"
  | .obj _ => "<dict>"

/-- `s.endswith('s')`. -/
def endsWithS (s : String) : Bool :=
  match s.toList.getLast? with
  | some c => c = 's'
  | none => false

/-- `s.rstrip('s')`: drop every trailing `'s'`. -/
def rstripS (s : String) : String :=
  String.mk ((s.toList.reverse.dropWhile (fun c => c = 's')).reverse)

/-! ## `services/ml_data_validator.py` -/

/-- `MLDataValidator._is_valid_timestamp`: the key must match
`^\d+-\d+s$` (nonempty digit run, `-`, nonempty digit run, trailing `s`). -/
def isValidTimestampKey (s : String) : Bool :=
  let l := s.toList
  let d1 := l.takeWhile Char.isDigit
  let r1 := l.dropWhile Char.isDigit
  match r1 with
  | '-' :: r2 =>
    let d2 := r2.takeWhile Char.isDigit
    let r3 := r2.dropWhile Char.isDigit
    !d1.isEmpty && !d2.isEmpty && decide (r3 = ['s'])
  | _ => false

/-- The six timeline kinds `validate_unified_analysis` expects. -/
def expectedTimelines : List String :=
  ["objectTimeline", "textOverlayTimeline", "speechTimeline",
    "gestureTimeline", "expressionTimeline", "stickerTimeline"]

/-- The four required top-level fields. -/
def requiredFields : List String :=
  ["video_id", "timelines", "static_metadata", "duration_seconds"]

/-- `MLDataValidator.validate_unified_analysis`
(ml_data_validator.py:32-67).  The document is a dict; its `timelines` /
`static_metadata` values may be any JSON value, and the `in` tests on them
raise `TypeError` for non-container values — hence `PyEx`. -/
def validateUnifiedAnalysis (doc : List (String × J)) :
    PyEx (Bool × List String) := do
  let issues1 := requiredFields.filterMap (fun f =>
    if dictHasKey doc f then none else some ("Missing required field: " ++ f))
  let issues2 ←
    match alookup doc "timelines" with
    | none => pure []
    | some tls =>
      expectedTimelines.foldlM (fun acc name => do
        let present ← jIn name tls
        if !present then
          pure (acc ++ ["Missing timeline: " ++ name])
        else do
          let v ← jIndexKey tls name
          if v.isObj then pure acc
          else pure (acc ++
            ["Invalid timeline format: " ++ name ++ " should be dict"])) []
  let issues3 ←
    match alookup doc "static_metadata" with
    | none => pure []
    | some md => do
      let hasStats ← jIn "stats" md
      if hasStats then do
        let sv ← jIndexKey md "stats"
        if sv.isObj then pure ([] : List String)
        else pure ["Invalid stats format in static_metadata"]
      else pure []
  let issues := issues1 ++ issues2 ++ issues3
  pure (issues.isEmpty, issues)

/-- `MLDataValidator._filter_timeline_by_seconds`
(ml_data_validator.py:188-201): keep entries whose parsed start second is
below the cutoff; entries whose key fails `int()` are skipped (logged). -/
def filterTimelineBySeconds (tl : List (String × J)) (maxSeconds : ℤ) :
    List (String × J) :=
  tl.filter (fun p =>
    match pyIntOfStr? (splitDashHead p.1) with
    | some st => decide (st < maxSeconds)
    | none => false)

/-- Effectful map over a list, first failure propagating (the elements are
processed in order, like Python evaluating a key function per item). -/
def mapExcept (f : α → PyEx β) : List α → PyEx (List β)
  | [] => .ok []
  | x :: xs =>
    match f x with
    | .error e => .error e
    | .ok y =>
      match mapExcept f xs with
      | .error e => .error e
      | .ok ys => .ok (y :: ys)

/-- The sort key of `_sample_timeline`
(`int(x[0].split('-')[0]) if '-' in x[0] else 0`); `int()` can raise. -/
def sampleSortKey (key : String) : PyEx ℤ :=
  if strContains key "-" then
    match pyIntOfStr? (splitDashHead key) with
    | some n => Except.ok n
    | none => Except.error ("ValueError: invalid literal for int: " ++ key)
  else Except.ok 0

/-- `MLDataValidator._sample_timeline` (ml_data_validator.py:203-216).
The sort key can raise `ValueError`; `len // max_entries` can raise
`ZeroDivisionError`. -/
def sampleTimeline (tl : List (String × α)) (maxEntries : ℕ) :
    PyEx (List (String × α)) :=
  if tl.length ≤ maxEntries then .ok tl
  else
    match mapExcept (fun p => (sampleSortKey p.1).map (fun k => (k, p))) tl with
    | .error e => .error e
    | .ok keyed =>
      let sortedItems := (sortStable (fun a b => decide (a.1 < b.1)) keyed).map
        Prod.snd
      if maxEntries = 0 then
        .error "ZeroDivisionError: integer division by zero"
      else
        let step := max 1 (sortedItems.length / maxEntries)
        .ok (pyDictOfPairs (everyNth sortedItems step))

/-- `object_counts[obj] = object_counts.get(obj, 0) + count`: add at the
key's first position, or append a fresh key. -/
def bumpCount (l : List (String × ℚ)) (k : String) (v : ℚ) :
    List (String × ℚ) :=
  if dictHasKey l k then
    l.map (fun p => if p.1 = k then (p.1, p.2 + v) else p)
  else l ++ [(k, v)]

/-- `MLDataValidator._get_timeline_summary` (ml_data_validator.py:218-246).
Raises when `timelines` is not a dict, when an entry's `objects` value is
not a dict, when an `objects` count is not a number, or when a `texts`
value has no `len`. -/
def getTimelineSummary (tls : J) : PyEx (List (String × J)) := do
  let items ← jItems tls
  items.foldlM (fun acc (p : String × J) => do
    let name := p.1
    match p.2 with
    | .obj entries => do
      let base : List (String × J) :=
        [("entry_count", .num entries.length),
          ("has_data", .bool (!entries.isEmpty))]
      let extra ←
        if name = "objectTimeline" then do
          let counts ← entries.foldlM (fun (oc : List (String × ℚ))
              (e : String × J) => do
            match e.2 with
            | .obj ef =>
              if dictHasKey ef "objects" then do
                let ov ← jGetD (.obj ef) "objects" (.obj [])
                let objItems ← jItems ov
                objItems.foldlM (fun oc2 (oi : String × J) => do
                  let c ← jAsNum oi.2
                  pure (bumpCount oc2 oi.1 c)) oc
              else pure oc
            | _ => pure oc) []
          pure [("unique_objects", J.arr (counts.map (fun c => J.str c.1))),
            ("total_detections", J.num (counts.map Prod.snd).sum)]
        else if name = "textOverlayTimeline" then do
          let tc ← entries.foldlM (fun (n : ℚ) (e : String × J) => do
            match e.2 with
            | .obj ef =>
              if dictHasKey ef "texts" then do
                let tv ← jGetD (.obj ef) "texts" (.arr [])
                let len ← jLen tv
                pure (n + len)
              else pure n
            | _ => pure n) 0
          pure [("total_text_detections", J.num tc)]
        else pure []
      pure (acc ++ [(name, J.obj (base ++ extra))])
    | _ => pure acc) []

/-- `MLDataValidator.extract_safe_context_data`
(ml_data_validator.py:112-186).  `now` stands for
`datetime.now().isoformat()`.  In strict mode a failed validation raises
`ValueError`; in lenient mode it is only logged. -/
def extractSafeContextData (doc : List (String × J)) (promptName : String)
    (maxTimelineEntries : ℕ) (strictMode : Bool) (now : String) :
    PyEx (List (String × J)) := do
  let (isValid, issues) ← validateUnifiedAnalysis doc
  if !isValid && strictMode then
    throw ("Invalid unified data: " ++ String.intercalate ", " issues)
  else do
  let ctx1 : List (String × J) :=
    if dictHasKey doc "duration_seconds" then
      [("duration", (alookup doc "duration_seconds").getD .null)]
    else []
  let ctx2 ←
    match alookup doc "static_metadata" with
    | none => pure ctx1
    | some md => do
      let hasCaption ← jIn "captionText" md
      let ctx1a ←
        if hasCaption then do
          let cv ← jIndexKey md "captionText"
          let sliced ← jSlice cv 500
          pure (ctx1 ++ [("caption", sliced)])
        else pure ctx1
      let hasStats ← jIn "stats" md
      if hasStats then do
        let sv ← jIndexKey md "stats"
        if sv.isObj then pure (ctx1a ++ [("engagement_stats", sv)])
        else pure ctx1a
      else pure ctx1a
  let timelines := (alookup doc "timelines").getD (.obj [])
  let ctx3 ←
    if promptName = "hook_analysis" then do
      let items ← jItems timelines
      let collected := items.foldl (fun acc (p : String × J) =>
        match p.2 with
        | .obj e =>
          if !e.isEmpty then
            let f := filterTimelineBySeconds e 5
            if !f.isEmpty then acc ++ [(p.1, J.obj f)] else acc
          else acc
        | _ => acc) []
      pure (ctx2 ++ [("first_5_seconds", J.obj collected)])
    else if promptName = "creative_density" ∨ promptName = "engagement_triggers"
    then do
      let items ← jItems timelines
      let collected ← items.foldlM (fun acc (p : String × J) => do
        match p.2 with
        | .obj e =>
          if !e.isEmpty then do
            let s ← sampleTimeline e maxTimelineEntries
            if !s.isEmpty then pure (acc ++ [(p.1, J.obj s)]) else pure acc
          else pure acc
        | _ => pure acc) []
      pure (ctx2 ++ [("timeline_samples", J.obj collected)])
    else do
      let summary ← getTimelineSummary timelines
      pure (ctx2 ++ [("timeline_summary", J.obj summary)])
  pure (ctx3 ++ [("_validation", J.obj
    [("validated_at", .str now),
      ("data_source", .str "ml_detections"),
      ("validator_version", .str "1.0")])])

/-- The four suspicious substrings of
`MLDataValidator.validate_prompt_context`. -/
def validatorSuspiciousPatterns : List String :=
  ["link in bio", "swipe up", "example.com", "lorem ipsum"]

/-- `MLDataValidator.validate_prompt_context`
(ml_data_validator.py:248-286): pattern scan over the lower-cased JSON dump
of the context, plus per-prompt required-field warnings. -/
def validatePromptContext (promptName : String) (ctx : List (String × J)) :
    Bool × List String :=
  let ctxStr := pyLower (String.mk (dumpsJ (.obj ctx)))
  let w1 := validatorSuspiciousPatterns.filterMap (fun p =>
    if strContains ctxStr p then
      some ("Suspicious pattern detected: '" ++ p ++ "'")
    else none)
  let w2 :=
    if promptName = "hook_analysis" then
      if !dictHasKey ctx "first_5_seconds" && !dictHasKey ctx "timeline_samples"
      then ["Missing timeline data for hook analysis"] else []
    else if promptName = "engagement_triggers" then
      if !dictHasKey ctx "timeline_samples" then
        ["Missing timeline samples for engagement analysis"] else []
    else []
  let w3 :=
    if !dictHasKey ctx "_validation" then
      ["Context data not validated by MLDataValidator"] else []
  let warnings := w1 ++ w2 ++ w3
  (warnings.isEmpty, warnings)

/-- `create_safe_context` (ml_data_validator.py:307-353): lenient mode
converts any extraction exception into a minimal fallback context; strict
mode re-raises.  (`validate_prompt_context` and the audit log are invoked
for their side effects only and do not alter the returned context.) -/
def createSafeContext (doc : List (String × J)) (promptName : String)
    (strict : Bool) (now : String) : PyEx (List (String × J)) :=
  match extractSafeContextData doc promptName 50 strict now with
  | .ok ctx => .ok ctx
  | .error e =>
    if strict then .error e
    else .ok
      [("error", .str "Failed to extract ML data"),
        ("video_id", (alookup doc "video_id").getD (.str "unknown")),
        ("_validation", J.obj
          [("validated_at", .str now), ("error", .str e)])]

/-! ## `test_ml_data_integrity.py` -/

/-- The ten suspicious substrings of
`MLDataIntegrityTester._check_suspicious_patterns`. -/
def testerSuspiciousPatterns : List String :=
  ["link in bio", "swipe up", "example.com", "lorem ipsum",
    "test test test", "placeholder", "todo:", "fixme:",
    "[insert here]", "coming soon"]

/-- `MLDataIntegrityTester._check_suspicious_patterns`
(test_ml_data_integrity.py:142-171): scan the lower-cased JSON dump of the
document for each pattern; on a hit, attribute the pattern to every
timeline whose own dump contains it (or report it against the whole
document when there is no `timelines` key).  Iterating a non-dict
`timelines` value raises. -/
def checkSuspiciousPatterns (data : List (String × J)) : PyEx (List String) :=
  let dataStr := pyLower (String.mk (dumpsJ (.obj data)))
  testerSuspiciousPatterns.foldlM (fun acc p =>
    if strContains dataStr p then
      match alookup data "timelines" with
      | some tls => do
        let items ← jItems tls
        pure (acc ++ items.filterMap (fun (t : String × J) =>
          if strContains (pyLower (String.mk (dumpsJ t.2))) p then
            some ("'" ++ p ++ "' found in " ++ t.1)
          else none))
      | none => pure (acc ++ ["'" ++ p ++ "' found in data"])
    else pure acc) []

/-- The "beyond duration" issue string of `_check_data_consistency`. -/
def beyondDurationMsg (timelineName timestamp : String) (duration : J) :
    String :=
  timelineName ++ " has entry at " ++ timestamp ++
    " beyond video duration " ++ pyStrJ duration ++ "s"

/-- The frame-count mismatch issue string of `_check_data_consistency`. -/
def frameMismatchMsg (totalFrames : J) (expectedFrames : ℤ) : String :=
  "Frame count mismatch: " ++ pyStrJ totalFrames ++ " frames != " ++
    toString expectedFrames ++ " expected (duration*fps)"

/-- The duration-bound scan of `_check_data_consistency`
(test_ml_data_integrity.py:179-192): walk every timeline that is a dict
and report each entry whose key has the shape `…-Ns` with `int(N)` beyond
the video duration. -/
def durationIssues (tll : List (String × J)) (dq : ℚ) (duration : J) :
    List String :=
  tll.foldl (fun acc (t : String × J) =>
    match t.2 with
    | .obj entries =>
      acc ++ entries.filterMap (fun (e : String × J) =>
        let ts := e.1
        if strContains ts "-" && endsWithS ts then
          match pySplit ts '-' with
          | _ :: p2 :: _ =>
            match pyIntOfStr? (rstripS p2) with
            | some endTime =>
              if (endTime : ℚ) > dq then
                some (beyondDurationMsg t.1 ts duration)
              else none
            | none => none
          | _ => none
        else none)
    | _ => acc) []

/-- The frame-count cross-check block of `_check_data_consistency`
(test_ml_data_integrity.py:194-202): flag when both counts are positive
and they differ by more than 10% of the expected count. -/
def frameIssues (totalFrames : J) (tq : ℚ) (expectedFrames : ℤ) :
    List String :=
  if tq > 0 ∧ expectedFrames > 0 then
    if |tq - (expectedFrames : ℚ)| > (expectedFrames : ℚ) * (1 / 10) then
      [frameMismatchMsg totalFrames expectedFrames]
    else []
  else []

/-- `MLDataIntegrityTester._check_data_consistency`
(test_ml_data_integrity.py:173-216).  Three groups of issues: timeline
entries whose interval end exceeds the duration, a frame-count/duration
cross-check (`fps` defaults to `1` when absent, `total_frames` to `0`),
and metadata-summary claims unsupported by timeline data.  Numeric
comparisons on non-numeric field values raise `TypeError`. -/
def checkDataConsistency (data : List (String × J)) : PyEx (List String) := do
  let duration := (alookup data "duration_seconds").getD (.num 0)
  let dq ← jAsNum duration
  let issues1 ←
    if dq > 0 then do
      let tls := (alookup data "timelines").getD (.obj [])
      let items ← jItems tls
      pure (durationIssues items dq duration)
    else pure []
  let totalFrames := (alookup data "total_frames").getD (.num 0)
  let fps := (alookup data "fps").getD (.num 1)
  let expectedFrames : ℤ ←
    if dq > 0 then do
      let fq ← jAsNum fps
      pure (if fq > 0 then pyTrunc (dq * fq) else 0)
    else pure 0
  let tq ← jAsNum totalFrames
  let issues2 := frameIssues totalFrames tq expectedFrames
  let tls2 := (alookup data "timelines").getD (.obj [])
  let mds := (alookup data "metadata_summary").getD (.obj [])
  let mdObjects ← jGetD mds "objects" .null
  let issues3a ←
    if jTruthy mdObjects then do
      let tlObject ← jGetD tls2 "objectTimeline" .null
      pure (if ¬ jTruthy tlObject then
        ["Objects mentioned in summary but objectTimeline is empty"] else [])
    else pure []
  let mdSpeech ← jGetD mds "speech" .null
  let issues3b ←
    if jTruthy mdSpeech then do
      let tlSpeech ← jGetD tls2 "speechTimeline" .null
      pure (if ¬ jTruthy tlSpeech then
        ["Speech mentioned in summary but speechTimeline is empty"] else [])
    else pure []
  pure (issues1 ++ issues2 ++ issues3a ++ issues3b)

/-! ## Decidable equality for JSON values -/

mutual

/-- Structural equality test for JSON values. -/
def beqJ : J → J → Bool
  | .null, .null => true
  | .bool a, .bool b => a == b
  | .num a, .num b => decide (a = b)
  | .str a, .str b => decide (a = b)
  | .arr a, .arr b => beqJList a b
  | .obj a, .obj b => beqJFields a b
  | _, _ => false

/-- `beqJ` over element lists. -/
def beqJList : List J → List J → Bool
  | [], [] => true
  | x :: xs, y :: ys => beqJ x y && beqJList xs ys
  | _, _ => false

/-- `beqJ` over field lists. -/
def beqJFields : List (String × J) → List (String × J) → Bool
  | [], [] => true
  | (k, v) :: xs, (k', v') :: ys =>
    decide (k = k') && beqJ v v' && beqJFields xs ys
  | _, _ => false

end

mutual

theorem beqJ_eq : ∀ a b : J, beqJ a b = true ↔ a = b
  | .null, b => by cases b <;> simp [beqJ]
  | .bool x, b => by cases b <;> simp [beqJ]
  | .num x, b => by cases b <;> simp [beqJ]
  | .str x, b => by cases b <;> simp [beqJ]
  | .arr l, b => by
    cases b <;> simp [beqJ]
    case arr l' => rw [beqJList_eq l l']
  | .obj l, b => by
    cases b <;> simp [beqJ]
    case obj l' => rw [beqJFields_eq l l']

theorem beqJList_eq : ∀ a b : List J, beqJList a b = true ↔ a = b
  | [], b => by cases b <;> simp [beqJList]
  | x :: xs, b => by
    cases b with
    | nil => simp [beqJList]
    | cons y ys =>
      simp only [beqJList, Bool.and_eq_true, beqJ_eq x y, beqJList_eq xs ys,
        List.cons.injEq]

theorem beqJFields_eq :
    ∀ a b : List (String × J), beqJFields a b = true ↔ a = b
  | [], b => by cases b <;> simp [beqJFields]
  | (k, v) :: xs, b => by
    cases b with
    | nil => simp [beqJFields]
    | cons y ys =>
      obtain ⟨k', v'⟩ := y
      simp only [beqJFields, Bool.and_eq_true, beqJ_eq v v',
        beqJFields_eq xs ys, decide_eq_true_eq, List.cons.injEq,
        Prod.mk.injEq, and_assoc]

end

instance : DecidableEq J := fun a b => decidable_of_iff _ (beqJ_eq a b)

/-! ## Typed timeline entries

The metric engines consume timeline entry records of fixed per-kind shape
(spec §3: a Timeline maps interval-label keys to detection records).  Each
structure carries exactly the fields the engines read; an `Option` field
models presence/absence of the dict key. -/

/-- A `textOverlayTimeline` entry: optional `texts` list. -/
structure TextEntry where
  texts : Option (List J)
deriving DecidableEq

/-- A `stickerTimeline` entry: optional `stickers` list. -/
structure StickerEntry where
  stickers : Option (List J)
deriving DecidableEq

/-- A `gestureTimeline` entry: optional `gestures` list of gesture names. -/
structure GestureEntry where
  gestures : Option (List String)
deriving DecidableEq

/-- An `expressionTimeline` entry: optional `expression` label. -/
structure ExprEntry where
  expression : Option String
deriving DecidableEq

/-- An `objectTimeline` entry: `objects` name-count mapping and optional
`total_objects`. -/
structure ObjEntry where
  objects : List (String × ℚ)
  total_objects : Option ℚ
deriving DecidableEq

/-- A `sceneChangeTimeline` entry: optional `type` tag and optional
`confidence`. -/
structure SceneEntry where
  type : Option String
  confidence : Option ℚ
deriving DecidableEq

/-- The timeline mapping as read by `compute_creative_density_analysis`
via `timelines.get(name, {})`: the five counted modality timelines plus
the scene-change timeline (used only for its entry count there). -/
structure DensityTimelines where
  text : List (String × TextEntry)
  sticker : List (String × StickerEntry)
  gesture : List (String × GestureEntry)
  expression : List (String × ExprEntry)
  object : List (String × ObjEntry)
  sceneChange : List (String × SceneEntry)
deriving DecidableEq

/-! ## `compute_creative_density_analysis`
(run_video_prompts_validated_v2.py:319-542) -/

/-- Per-second per-modality element counts. -/
structure ElemCounts where
  text : ℚ
  sticker : ℚ
  gesture : ℚ
  expression : ℚ
  object : ℚ
deriving DecidableEq

/-- The all-zero breakdown. -/
def ElemCounts.zero : ElemCounts := ⟨0, 0, 0, 0, 0⟩

/-- Replace the `i`-th element (no-op out of range), like a guarded
`l[i] = f(l[i])`. -/
def modifyAt (l : List α) (i : ℕ) (f : α → α) : List α :=
  match l, i with
  | [], _ => []
  | x :: xs, 0 => f x :: xs
  | x :: xs, n + 1 => x :: modifyAt xs n f

/-- One timeline's pass of the density loop
(run_video_prompts_validated_v2.py:342-362): parse the key's start second
(`int(timestamp.split('-')[0])`, any failure skips the entry), range-check
it, and add the entry's element count to both per-second arrays. -/
def densityPass (secondsZ : ℤ) (countOf : β → ℚ)
    (upd : ElemCounts → ℚ → ElemCounts)
    (st : List ℚ × List ElemCounts) (tl : List (String × β)) :
    List ℚ × List ElemCounts :=
  tl.foldl (fun st e =>
    match parseTimestampToSeconds e.1 with
    | none => st
    | some sec =>
      if 0 ≤ sec ∧ sec < secondsZ then
        (modifyAt st.1 sec.toNat (· + countOf e.2),
          modifyAt st.2 sec.toNat (fun ec => upd ec (countOf e.2)))
      else st) st

/-- Element count of a text entry:
`len(data.get('texts', [])) if 'texts' in data else 1`. -/
def textCount (e : TextEntry) : ℚ :=
  match e.texts with
  | some l => l.length
  | none => 1

/-- Element count of a sticker entry. -/
def stickerCount (e : StickerEntry) : ℚ :=
  match e.stickers with
  | some l => l.length
  | none => 1

/-- Element count of a gesture entry. -/
def gestureCount (e : GestureEntry) : ℚ :=
  match e.gestures with
  | some l => l.length
  | none => 1

/-- Element count of an object entry: `data.get('total_objects', 1)`. -/
def objectCount (e : ObjEntry) : ℚ :=
  e.total_objects.getD 1

/-- Element count of an expression entry:
`1 if data.get('expression') else 0` (empty string is falsy). -/
def exprCount (e : ExprEntry) : ℚ :=
  match e.expression with
  | some s => if s = "" then 0 else 1
  | none => 0

/-- The two per-second arrays after all five modality passes, in source
order (text, sticker, gesture, expression, object). -/
def densityArrays (t : DensityTimelines) (secondsZ : ℤ) :
    List ℚ × List ElemCounts :=
  let n := secondsZ.toNat
  let st0 : List ℚ × List ElemCounts :=
    (List.replicate n 0, List.replicate n ElemCounts.zero)
  let st1 := densityPass secondsZ textCount
    (fun ec c => { ec with text := ec.text + c }) st0 t.text
  let st2 := densityPass secondsZ stickerCount
    (fun ec c => { ec with sticker := ec.sticker + c }) st1 t.sticker
  let st3 := densityPass secondsZ gestureCount
    (fun ec c => { ec with gesture := ec.gesture + c }) st2 t.gesture
  let st4 := densityPass secondsZ exprCount
    (fun ec c => { ec with expression := ec.expression + c }) st3 t.expression
  densityPass secondsZ objectCount
    (fun ec c => { ec with object := ec.object + c }) st4 t.object

/-- `√v < c` for `v ≥ 0`, expressed on the radicand:
`√v < c ↔ 0 < c ∧ v < c²`. -/
def sqrtLt (v c : ℚ) : Bool :=
  decide (0 < c) && decide (v < c ^ 2)

/-- `√v > c` for `v ≥ 0`, expressed on the radicand:
`√v > c ↔ c < 0 ∨ c² < v`. -/
def sqrtGt (v c : ℚ) : Bool :=
  decide (c < 0) || decide (c ^ 2 < v)

/-- Maximum of a rational list, `0` when empty (the source guards with
`if density_per_second else 0`). -/
def listMax (l : List ℚ) : ℚ :=
  match l with
  | [] => 0
  | x :: xs => xs.foldl max x

/-- Minimum of a rational list, `0` when empty. -/
def listMin (l : List ℚ) : ℚ :=
  match l with
  | [] => 0
  | x :: xs => xs.foldl min x

/-- A full peak-moment record.  The source's `surprise_score` is
`surprise_num / std_deviation` when the standard deviation is positive and
`0` otherwise (rounded for display); the exact numerator is carried here
and the global variance lives in the surrounding analysis object. -/
structure PeakMoment where
  timestamp : String
  second : ℕ
  total_elements : ℚ
  surprise_num : ℚ
  breakdown : ElemCounts
deriving DecidableEq

/-- A density-curve sample point. -/
structure CurvePoint where
  second : ℕ
  density : ℚ
  primary_element : String
deriving DecidableEq

/-- A trimmed peak record as exposed in `peak_density_moments`. -/
structure PeakDensityMoment where
  timestamp : String
  element_count : ℚ
  surprise_num : ℚ
deriving DecidableEq

/-- `max(elements.items(), key=lambda x: x[1])[0]`: first key with maximal
count, in dict insertion order (text, sticker, gesture, expression,
object). -/
def primaryElem (ec : ElemCounts) : String :=
  let items : List (String × ℚ) :=
    [("text", ec.text), ("sticker", ec.sticker), ("gesture", ec.gesture),
      ("expression", ec.expression), ("object", ec.object)]
  (items.foldl (fun best p => if p.2 > best.2 then p else best)
    ("text", ec.text)).1

/-- Python `range(0, stop, step)` over the naturals (`stop` may be an
arbitrary integer; `step ≥ 1` at every call site). -/
def pyRangeStep (stop : ℤ) (step : ℕ) : List ℕ :=
  if stop ≤ 0 then []
  else List.range' 0 ((stop.toNat + step - 1) / step) step

/-- The return value of `compute_creative_density_analysis` (the
`density_analysis` dict).  `std_deviation_sq` carries the sample variance
whose square root the source reports; `density_volatility_sq` carries the
square of the reported volatility `min(1, std/mean)`. -/
structure DensityAnalysis where
  creative_density_score : ℚ
  elements_per_second : ℚ
  total_creative_elements : ℚ
  element_distribution : ElemCounts
  timeline_coverage : ℚ
  density_pattern : String
  peak_density_moments : List PeakDensityMoment
  density_volatility_sq : ℚ
  empty_seconds : ℕ
  creative_ml_tags : List String
  duration_seconds : ℤ
  max_density : ℚ
  min_density : ℚ
  std_deviation_sq : ℚ
  patterns_identified : List String
  peak_moments : List PeakMoment
  density_curve : List CurvePoint
  scene_changes : ℕ

/-- Peak-moment selection (run_video_prompts_validated_v2.py:371-398):
rank seconds by `(count, index)` descending, keep at most the top 10 with
count above the global mean, drop zero counts, and re-sort by time. -/
def densityPeakMoments (density : List ℚ) (types : List ElemCounts)
    (avgDensity : ℚ) (seconds : ℕ) : List PeakMoment :=
  let withIndex : List (ℚ × ℕ) := density.enum.map (fun p => (p.2, p.1))
  let sortedDesc := sortStable (fun a b =>
    decide (b.1 < a.1) || (decide (a.1 = b.1) && decide (b.2 < a.2)))
    withIndex
  let numPeaks := min 10 ((withIndex.filter
    (fun p => decide (p.1 > avgDensity))).length)
  let peakMoments0 := (sortedDesc.take numPeaks).filterMap (fun p =>
    if p.1 > 0 then
      let s := p.2
      let window := (density.drop (s - 3)).take (min seconds (s + 4) - (s - 3))
      let localAvg := listMean window
      some
        { timestamp := toString s ++ "-" ++ toString (s + 1) ++ "s",
          second := s, total_elements := p.1,
          surprise_num := p.1 - localAvg,
          breakdown := (types.drop s).headD ElemCounts.zero : PeakMoment }
    else none)
  sortStable (fun a b => decide (a.second < b.second)) peakMoments0

/-- `significant_peaks` (run_video_prompts_validated_v2.py:429): peaks with
count above 1.5 times the mean. -/
def significantPeaksOf (peakMoments : List PeakMoment) (avgDensity : ℚ) :
    List PeakMoment :=
  peakMoments.filter (fun p => decide (p.total_elements > avgDensity * (3 / 2)))

/-- Pattern detection (run_video_prompts_validated_v2.py:400-440), in the
source's append order. -/
def densityPatterns (density : List ℚ) (varS avgDensity : ℚ)
    (secondsZ : ℤ) (seconds : ℕ) (significantPeaks : List PeakMoment) :
    List String :=
  let patterns1 :=
    if seconds > 3 then
      let opening := listMean (density.take 3)
      let rest := if density.length > 3 then listMean (density.drop 3) else 0
      if rest > 0 ∧ opening > rest * (3 / 2) then ["strong_opening_hook"]
      else []
    else []
  let thirds :=
    if seconds > 10 then
      let firstThird := listMean (density.take (seconds / 3))
      let negIdx : ℤ := Int.fdiv (-(secondsZ)) 3
      let lastThird := listMean (density.drop (secondsZ + negIdx).toNat)
      some (firstThird, lastThird)
    else none
  let patterns2 :=
    match thirds with
    | some (f, l) => if f > 0 ∧ l > f * (3 / 2) then ["crescendo_pattern"]
      else []
    | none => []
  let patterns3 :=
    match thirds with
    | some (f, l) => if l > 0 ∧ f > l * (3 / 2) then ["front_loaded"] else []
    | none => []
  let patterns4 :=
    if sqrtLt varS (avgDensity * (3 / 10)) then ["consistent_density"]
    else []
  let patterns5 :=
    if significantPeaks.length ≥ 2 then
      let times := significantPeaks.map (fun p => p.second)
      if (times.zip times.tail).any (fun p => decide (p.2 ≥ p.1 + 8)) then
        ["dual_peak_structure"]
      else []
    else []
  let patterns6 :=
    if significantPeaks.length ≥ 3 then ["multi_peak_rhythm"] else []
  patterns1 ++ patterns2 ++ patterns3 ++ patterns4 ++ patterns5 ++ patterns6

/-- The density curve (run_video_prompts_validated_v2.py:442-454): one
sample every second (every two seconds past 30s). -/
def densityCurveOf (density : List ℚ) (types : List ElemCounts)
    (secondsZ : ℤ) (seconds : ℕ) : List CurvePoint :=
  let sampleInterval : ℕ := if seconds > 30 then 2 else 1
  (pyRangeStep secondsZ sampleInterval).map (fun i =>
    let ec := (types.drop i).headD ElemCounts.zero
    let primary :=
      if ec.text ≠ 0 ∨ ec.sticker ≠ 0 ∨ ec.gesture ≠ 0 ∨
          ec.expression ≠ 0 ∨ ec.object ≠ 0 then
        primaryElem ec
      else "none"
    { second := i, density := (density.drop i).headD 0,
      primary_element := primary : CurvePoint })

/-- The `creative_ml_tags` list
(run_video_prompts_validated_v2.py:494-507), in the source's append
order. -/
def creativeMlTags (patterns : List String)
    (elementDistribution : ElemCounts) (totalElements : ℚ)
    (significantPeaksCount : ℕ) (emptySeconds : ℕ) (seconds : ℕ)
    (volatilitySq : ℚ) : List String :=
  let tags1 := if patterns.contains "strong_opening_hook" then ["hook_heavy"]
    else []
  let tags2 := if elementDistribution.text > totalElements * (2 / 5) then
    ["text_driven"] else []
  let tags3 := if elementDistribution.gesture > totalElements * (3 / 10) then
    ["gesture_rich"] else []
  let tags4 := if significantPeaksCount ≥ 3 then ["multi_peak"] else []
  let tags5 := if (emptySeconds : ℚ) > (seconds : ℚ) * (3 / 10) then
    ["sparse_density"] else []
  let tags6 := if sqrtGt volatilitySq (3 / 5) then ["dynamic_pacing"] else []
  tags1 ++ tags2 ++ tags3 ++ tags4 ++ tags5 ++ tags6

/-- `compute_creative_density_analysis`
(run_video_prompts_validated_v2.py:319-542). -/
def computeCreativeDensityAnalysis (t : DensityTimelines) (duration : ℚ) :
    DensityAnalysis :=
  let secondsZ : ℤ := pyTrunc duration + 1
  let seconds : ℕ := secondsZ.toNat
  let st : List ℚ × List ElemCounts := densityArrays t secondsZ
  let density : List ℚ := st.1
  let types : List ElemCounts := st.2
  let totalElements : ℚ := density.sum
  let avgDensity : ℚ := listMean density
  let varS : ℚ := sampleVariance density
  let peakMoments := densityPeakMoments density types avgDensity seconds
  let significantPeaks := significantPeaksOf peakMoments avgDensity
  let patterns := densityPatterns density varS avgDensity secondsZ seconds
    significantPeaks
  let elementDistribution : ElemCounts :=
    { text := (types.map (·.text)).sum,
      sticker := (types.map (·.sticker)).sum,
      gesture := (types.map (·.gesture)).sum,
      expression := (types.map (·.expression)).sum,
      object := (types.map (·.object)).sum }
  let emptySeconds := (density.filter (fun d => decide (d = 0))).length
  let timelineCoverage : ℚ :=
    if seconds > 0 then ((seconds : ℚ) - emptySeconds) / seconds else 0
  let volatilitySq : ℚ :=
    if avgDensity > 0 then min 1 (varS / avgDensity ^ 2) else 0
  let score : ℚ :=
    if avgDensity < 1 / 2 then avgDensity * 6
    else if avgDensity < 3 / 2 then 3 + (avgDensity - 1 / 2) * 3
    else 6 + min ((avgDensity - 3 / 2) * 2) 4
  let densityPattern :=
    if patterns.contains "front_loaded" then "front_loaded"
    else if patterns.contains "crescendo_pattern" then "back_loaded"
    else if patterns.contains "consistent_density" then "even"
    else "variable"
  { creative_density_score := score,
    elements_per_second := avgDensity,
    total_creative_elements := totalElements,
    element_distribution := elementDistribution,
    timeline_coverage := timelineCoverage,
    density_pattern := densityPattern,
    peak_density_moments := (peakMoments.take 5).map (fun p =>
      { timestamp := p.timestamp, element_count := p.total_elements,
        surprise_num := p.surprise_num : PeakDensityMoment }),
    density_volatility_sq := volatilitySq,
    empty_seconds := emptySeconds,
    creative_ml_tags := creativeMlTags patterns elementDistribution
      totalElements significantPeaks.length emptySeconds seconds volatilitySq,
    duration_seconds := pyTrunc duration,
    max_density := listMax density,
    min_density := listMin density,
    std_deviation_sq := varS,
    patterns_identified := patterns,
    peak_moments := peakMoments,
    density_curve := densityCurveOf density types secondsZ seconds,
    scene_changes := t.sceneChange.length }

/-! ## `compute_emotional_metrics`
(run_video_prompts_validated_v2.py:545-809) -/

/-- The fixed `EMOTION_LABELS` list. -/
def emotionLabels : List String :=
  ["joy", "sadness", "anger", "fear", "surprise", "disgust", "neutral"]

/-- The fixed `EMOTION_VALENCE` lexicon. -/
def emotionValenceTable : List (String × ℚ) :=
  [("joy", 4/5), ("happy", 4/5), ("excited", 9/10),
    ("neutral", 0), ("calm", 1/10),
    ("sadness", -(3/5)), ("sad", -(3/5)),
    ("anger", -(4/5)), ("angry", -(4/5)),
    ("fear", -(7/10)), ("worried", -(1/2)),
    ("surprise", 3/10), ("surprised", 3/10),
    ("disgust", -(9/10)),
    ("contemplative", -(1/10)), ("thoughtful", -(1/10))]

/-- Helper for `dedupFirst`: skip elements already seen. -/
def dedupFirstAux : List String → List String → List String
  | [], _ => []
  | x :: xs, seen =>
    if seen.contains x then dedupFirstAux xs seen
    else x :: dedupFirstAux xs (seen ++ [x])

/-- First occurrences, in order (the key order of `collections.Counter`). -/
def dedupFirst (l : List String) : List String :=
  dedupFirstAux l []

/-- `Counter(l).most_common(1)[0][0]`: the most frequent element; ties are
broken by first occurrence (`Counter` preserves insertion order and
`most_common` sorts stably).  Only called on nonempty lists. -/
def firstMode (l : List String) : String :=
  let uniq := dedupFirst l
  match uniq with
  | [] => ""
  | u :: us => (us.foldl (fun best x =>
      if l.count x > l.count best then x else best) u)

/-- Standardisation of a dominant raw label
(run_video_prompts_validated_v2.py:595-603). -/
def standardizeEmotion (dominant : String) : String :=
  if dominant = "happy" ∨ dominant = "excited" then "joy"
  else if dominant = "sad" then "sadness"
  else if dominant = "contemplative" ∨ dominant = "thoughtful" then "neutral"
  else if emotionLabels.contains dominant then dominant
  else "neutral"

/-- An `emotional_peaks` record. -/
structure EmotionalPeak where
  timestamp : String
  emotion : String
  intensity : ℚ
deriving DecidableEq

/-- An `emotion_valence_curve` point. -/
structure ValencePoint where
  timestamp : String
  valence : ℚ
  emotion : String
deriving DecidableEq

/-- The `valence_momentum` statistics block. -/
structure MomentumStats where
  average_momentum : ℚ
  max_positive_momentum : ℚ
  max_negative_momentum : ℚ
  momentum_changes : List ℚ
deriving DecidableEq

/-- The `peak_rhythm` block.  The source's `regularity_score`
(`1/(1 + √variance/mean)` when the mean spacing is positive, else `0`) is
the real number `regularityScoreR` of the spacing list; on the paths that
actually return (at most one spacing — see `peakRhythmOf`) the variance
field is the literal `0` of the `else 0` branch. -/
structure PeakRhythm where
  peak_spacing_mean : ℚ
  peak_spacing_variance : ℚ
  peak_count : ℕ
deriving DecidableEq

/-- The return value of `compute_emotional_metrics`.
`emotion_variability_sq` carries the sample variance whose square root the
source reports as `emotion_variability`. -/
structure EmotionalMetrics where
  emotion_variability_sq : ℚ
  emotion_sequence : List String
  emotion_valence : List ℚ
  emotion_timestamps : List String
  emotional_peaks : List EmotionalPeak
  dominant_emotion : String
  emotional_trajectory : String
  emotion_gesture_alignment : ℚ
  emotion_change_rate : ℚ
  emotional_consistency : ℚ
  has_high_emotion_peak : Bool
  peak_intensity_count : ℕ
  emotion_diversity : ℚ
  positive_ratio : ℚ
  negative_ratio : ℚ
  emotion_valence_curve : List ValencePoint
  emotion_transition_matrix : List (String × ℚ)
  valence_momentum : MomentumStats
  peak_rhythm : PeakRhythm
  sample_interval : ℕ
  intensity_threshold : ℚ

/-- Inter-peak spacings (run_video_prompts_validated_v2.py:750-758):
differences of the parsed start seconds of consecutive entries of the
(intensity-ordered) `emotional_peaks` list, skipping unparsable pairs. -/
def peakSpacingsOf (peaks : List EmotionalPeak) : List ℚ :=
  let times := peaks.map (fun p => p.timestamp)
  (times.zip times.tail).filterMap (fun p =>
    match parseTimestampToSeconds p.1, parseTimestampToSeconds p.2 with
    | some t1, some t2 => some ((t2 : ℚ) - (t1 : ℚ))
    | _, _ => none)

/-- The `regularity_score` formula of `peak_rhythm`
(run_video_prompts_validated_v2.py:764-769): `0` with no spacings,
otherwise `1/(1 + cv)` with `cv = √variance / mean` when the mean spacing
is positive, else `0`.  With two or more spacings the source raises on
line 762 before reaching this computation (see `peakRhythmOf`), so only
the zero- and one-spacing values are ever produced by the program. -/
noncomputable def regularityScoreR (spacings : List ℚ) : ℝ :=
  if spacings = [] then 0
  else
    let m := listMean spacings
    if m > 0 then
      1 / (1 + Real.sqrt (sampleVariance spacings) / (m : ℝ))
    else 0

/-- The window-sampling pass (run_video_prompts_validated_v2.py:570-612):
for each window, collect expressions whose parsed start lies in the window,
take the majority label (standardised) and its raw-label valence;
windows with no detection are neutral.  Each sample is
`(timestamp, standardised emotion, valence)`. -/
def emotionSamples (expressionTimeline : List (String × ExprEntry))
    (duration : ℚ) (sampleInterval : ℕ) : List (String × String × ℚ) :=
  let secondsZ : ℤ := pyTrunc duration + 1
  let seconds : ℕ := secondsZ.toNat
  (pyRangeStep secondsZ sampleInterval).map (fun i =>
    let timestamp := toString i ++ "-" ++
      toString (min (i + sampleInterval) seconds) ++ "s"
    let inWindow := expressionTimeline.filterMap (fun e =>
      match parseTimestampToSeconds e.1 with
      | some sec =>
        if (i : ℤ) ≤ sec ∧ sec < (i : ℤ) + sampleInterval then
          e.2.expression
        else none
      | none => none)
    if inWindow.isEmpty then (timestamp, "neutral", 0)
    else
      let dominant := firstMode inWindow
      (timestamp, standardizeEmotion dominant,
        (alookup emotionValenceTable dominant).getD 0))

/-- Emotional peaks (run_video_prompts_validated_v2.py:617-629): samples
with `|valence|` above the threshold, sorted by intensity descending
(stable), top five. -/
def emotionalPeaksOf (samples : List (String × String × ℚ))
    (intensityThreshold : ℚ) : List EmotionalPeak :=
  let peaks0 := samples.filterMap (fun s =>
    if |s.2.2| > intensityThreshold then
      some
        { timestamp := s.1, emotion := s.2.1,
          intensity := |s.2.2| : EmotionalPeak }
    else none)
  (sortStable (fun a b => decide (b.intensity < a.intensity)) peaks0).take 5

/-- Trajectory classification
(run_video_prompts_validated_v2.py:639-656). -/
def emotionalTrajectoryOf (emotionValence : List ℚ) : String :=
  let n := emotionValence.length
  if n ≥ 3 then
    let startVal := listMean (emotionValence.take (n / 3))
    let negIdx : ℤ := Int.fdiv (-(n : ℤ)) 3
    let endVal := listMean (emotionValence.drop ((n : ℤ) + negIdx).toNat)
    if endVal - startVal > 3 / 10 then "ascending"
    else if startVal - endVal > 3 / 10 then "descending"
    else
      let middle := (emotionValence.drop (n / 3)).take
        (((n : ℤ) + negIdx).toNat - n / 3)
      let middleVal := listMean middle
      if startVal > middleVal + 1 / 5 ∧ endVal > middleVal + 1 / 5 then
        "u-shaped"
      else "flat"
  else "flat"

/-- Emotion-gesture alignment counting
(run_video_prompts_validated_v2.py:658-677): `(aligned, checked)` over
expression entries whose key also occurs in the gesture timeline and that
carry an `expression` field. -/
def emotionGestureAlignCounts
    (expressionTimeline : List (String × ExprEntry))
    (gestureTimeline : List (String × GestureEntry)) : ℕ × ℕ :=
  expressionTimeline.foldl (fun (st : ℕ × ℕ) e =>
    match alookup gestureTimeline e.1, e.2.expression with
    | some g, some emotion =>
      let gestures := g.gestures.getD []
      let aligned :=
        if (emotion = "happy" ∨ emotion = "excited") ∧
            gestures.any (fun x =>
              x = "thumbs_up" ∨ x = "victory" ∨ x = "pointing") then 1
        else if (emotion = "sad" ∨ emotion = "thoughtful") ∧
            gestures.any (fun x => x = "closed_fist" ∨ x = "open_palm") then 1
        else if emotion = "surprised" ∧
            gestures.any (fun x => x = "pointing" ∨ x = "open_palm") then 1
        else 0
      (st.1 + aligned, st.2 + 1)
    | _, _ => st) (0, 0)

/-- Normalised transition matrix
(run_video_prompts_validated_v2.py:713-723): bigram counts in
first-occurrence key order, divided by the total when positive. -/
def emotionTransitionMatrixOf (emotionSequence : List String) :
    List (String × ℚ) :=
  let transitions0 := (emotionSequence.zip emotionSequence.tail).foldl
    (fun acc p => bumpCount acc (p.1 ++ "_to_" ++ p.2) 1) []
  let totalTransitions := (transitions0.map Prod.snd).sum
  if totalTransitions > 0 then
    transitions0.map (fun p => (p.1, p.2 / totalTransitions))
  else transitions0

/-- Valence momentum statistics
(run_video_prompts_validated_v2.py:725-747). -/
def momentumStatsOf (emotionValence : List ℚ) : MomentumStats :=
  let momentum := (emotionValence.zip emotionValence.tail).map
    (fun p => p.2 - p.1)
  if momentum.isEmpty then
    { average_momentum := 0, max_positive_momentum := 0,
      max_negative_momentum := 0, momentum_changes := [] }
  else
    let pos := momentum.filter (fun m => decide (m > 0))
    let neg := momentum.filter (fun m => decide (m < 0))
    { average_momentum := listMean momentum,
      max_positive_momentum := if pos.isEmpty then 0 else listMax pos,
      max_negative_momentum := if neg.isEmpty then 0 else listMin neg,
      momentum_changes := momentum }

/-- The `peak_rhythm` block (run_video_prompts_validated_v2.py:749-783),
minus the square-root-valued `regularity_score` (see `regularityScoreR`).
Line 762 reads `variance(peak_spacings) if len(peak_spacings) > 1 else 0`,
but `variance` is an undefined name in the module (only `mean` and `stdev`
are defined, and `statistics` is imported qualified), so with two or more
spacings the block raises `NameError`; only the no-spacing and
single-spacing paths return, and on the latter the variance is the
literal `0` of the `else` branch. -/
def peakRhythmOf (emotionalPeaks : List EmotionalPeak) :
    PyEx PeakRhythm :=
  let spacings := peakSpacingsOf emotionalPeaks
  if spacings.isEmpty then
    .ok
      { peak_spacing_mean := 0, peak_spacing_variance := 0,
        peak_count := emotionalPeaks.length }
  else if spacings.length > 1 then
    .error "NameError: name 'variance' is not defined"
  else
    .ok
      { peak_spacing_mean := listMean spacings,
        peak_spacing_variance := 0,
        peak_count := emotionalPeaks.length }

/-- `compute_emotional_metrics` (run_video_prompts_validated_v2.py:545-809).
The `speech_timeline` parameter is accepted and unused, as in the source.
Through the peak-rhythm block's undefined `variance` name (line 762, see
`peakRhythmOf`), the function raises `NameError` — rather than returning —
whenever the emotional peaks have two or more parsable inter-peak
spacings; every other part of the function is total. -/
def computeEmotionalMetrics (expressionTimeline : List (String × ExprEntry))
    (_speechTimeline : List (String × J))
    (gestureTimeline : List (String × GestureEntry))
    (duration : ℚ) (sampleInterval : ℕ := 5)
    (intensityThreshold : ℚ := 3/5) : PyEx EmotionalMetrics :=
  let samples := emotionSamples expressionTimeline duration sampleInterval
  let emotionSequence : List String := samples.map (fun s => s.2.1)
  let emotionValence : List ℚ := samples.map (fun s => s.2.2)
  let emotionalPeaks := emotionalPeaksOf samples intensityThreshold
  let alignState := emotionGestureAlignCounts expressionTimeline
    gestureTimeline
  let emotionChanges : List ℚ := (emotionValence.zip emotionValence.tail).map
    (fun p => |p.2 - p.1|)
  let changeRate : ℚ := if emotionChanges.isEmpty then 0
    else listMean emotionChanges
  let totalSamples := emotionValence.length
  match peakRhythmOf emotionalPeaks with
  | .error e => .error e
  | .ok peakRhythm =>
    .ok
      { emotion_variability_sq := sampleVariance emotionValence,
        emotion_sequence := emotionSequence,
        emotion_valence := emotionValence,
        emotion_timestamps := samples.map (fun s => s.1),
        emotional_peaks := emotionalPeaks,
        dominant_emotion :=
          if emotionSequence.isEmpty then "neutral"
          else firstMode emotionSequence,
        emotional_trajectory := emotionalTrajectoryOf emotionValence,
        emotion_gesture_alignment :=
          if alignState.2 > 0 then (alignState.1 : ℚ) / alignState.2 else 0,
        emotion_change_rate := changeRate,
        emotional_consistency := if changeRate ≤ 1 then 1 - changeRate else 0,
        has_high_emotion_peak :=
          emotionValence.any (fun v => decide (|v| > 4 / 5)),
        peak_intensity_count := (emotionValence.filter
          (fun v => decide (|v| > intensityThreshold))).length,
        emotion_diversity := ((dedupFirst emotionSequence).length : ℚ) /
          (emotionLabels.length : ℚ),
        positive_ratio :=
          if totalSamples > 0 then
            ((emotionValence.filter (fun v => decide (v > 1 / 10))).length : ℚ) /
              totalSamples
          else 0,
        negative_ratio :=
          if totalSamples > 0 then
            ((emotionValence.filter
              (fun v => decide (v < -(1 / 10)))).length : ℚ) / totalSamples
          else 0,
        emotion_valence_curve := samples.map (fun s =>
          { timestamp := s.1, valence := s.2.2, emotion := s.2.1 : ValencePoint }),
        emotion_transition_matrix := emotionTransitionMatrixOf emotionSequence,
        valence_momentum := momentumStatsOf emotionValence,
        peak_rhythm := peakRhythm,
        sample_interval := sampleInterval,
        intensity_threshold := intensityThreshold }

/-! ## `compute_scene_pacing_metrics`
(run_video_prompts_validated_v2.py:1242-1531) -/

/-- A `cameraDistanceTimeline` entry: optional `distance` label. -/
structure CamEntry where
  distance : Option String
deriving DecidableEq

/-- A tracked scene change (run_video_prompts_validated_v2.py:1282-1287). -/
structure SceneCut where
  timestamp : String
  time : ℤ
  confidence : ℚ
deriving DecidableEq

/-- The `shot_distribution` histogram. -/
structure ShotDistribution where
  short : ℕ
  medium : ℕ
  long : ℕ
deriving DecidableEq

/-- The return value of `compute_scene_pacing_metrics`.
`rhythm_variability_sq` carries `stdev²` (the sample variance) of the shot
durations; the source's `rhythm_variability` and `rhythm_consistency_score`
(`1/(1+stdev)`) are its square root and that root's transform, and the
banded `rhythm_consistency` class is computed here through the equivalent
squared comparisons. -/
structure ScenePacingMetrics where
  total_shots : ℕ
  avg_shot_duration : ℚ
  shots_per_minute : ℚ
  shortest_shot : ℚ
  longest_shot : ℚ
  shot_duration_variance : ℚ
  pacing_classification : String
  rhythm_consistency : String
  pacing_curve : List (String × ℕ)
  acceleration_score : ℚ
  cut_density_zones : List String
  intro_pacing : ℕ
  outro_pacing : ℕ
  visual_load_per_scene : ℚ
  shot_type_changes : ℕ
  pacing_tags : List String
  cut_frequency : ℚ
  min_shot_duration : ℚ
  max_shot_duration : ℚ
  rhythm_variability_sq : ℚ
  shot_distribution : ShotDistribution
  acceleration_phases : ℕ
  complexity_changes : ℕ
  montage_segments : ℕ
  peak_pacing_moments : ℕ
  energy_curve : List (ℚ × ℚ)
  camera_movement_cuts : ℕ
  scene_changes : List SceneCut

/-- Shot durations (run_video_prompts_validated_v2.py:1263-1278): for each
sorted key with a parsable start, the gap to the next parsable key's start,
or `video_duration - start` (when positive) for the last key.  A key whose
start fails to parse is skipped; a parsable key followed by an unparsable
one contributes no duration. -/
def shotDurationsLoop (vd : ℚ) : List String → List ℚ
  | [] => []
  | ts :: rest =>
    match parseTimestampToSeconds ts with
    | none => shotDurationsLoop vd rest
    | some cur =>
      match rest with
      | [] => if vd - (cur : ℚ) > 0 then [vd - (cur : ℚ)] else []
      | nxt :: _ =>
        match parseTimestampToSeconds nxt with
        | some nt => ((nt : ℚ) - (cur : ℚ)) :: shotDurationsLoop vd rest
        | none => shotDurationsLoop vd rest

/-- Montage counting (run_video_prompts_validated_v2.py:1351-1377): one
segment per maximal run of at least three consecutive shots under 1.5s. -/
def montageCount (durations : List ℚ) : ℕ :=
  let st := durations.foldl (fun (st : ℕ × ℕ) d =>
    if d < 3 / 2 then (st.1, st.2 + 1)
    else if st.2 ≥ 3 then (st.1 + 1, 0) else (st.1, 0)) (0, 0)
  if st.2 ≥ 3 then st.1 + 1 else st.1

/-- Maximum of a list of naturals (guarded nonempty at the call site). -/
def listMaxNat (l : List ℕ) : ℕ :=
  l.foldl max 0

/-- Sorted scene-timeline keys
(run_video_prompts_validated_v2.py:1260): stable sort by
`parse_timestamp_to_seconds(x) or 0`. -/
def sortedSceneKeys (sceneTimeline : List (String × SceneEntry)) :
    List String :=
  (sortStable (fun a b =>
    decide ((parseTimestampToSeconds a.1).getD 0 <
      (parseTimestampToSeconds b.1).getD 0)) sceneTimeline).map Prod.fst

/-- Tracked scene changes (run_video_prompts_validated_v2.py:1280-1287):
sorted keys with a parsable start whose entry is typed `scene_change`. -/
def sceneCutsOf (sceneTimeline : List (String × SceneEntry)) :
    List SceneCut :=
  (sortedSceneKeys sceneTimeline).filterMap (fun ts =>
    match parseTimestampToSeconds ts with
    | none => none
    | some cur =>
      match alookup sceneTimeline ts with
      | some e =>
        if e.type = some "scene_change" then
          some
            { timestamp := ts, time := cur,
              confidence := e.confidence.getD (1 / 2) }
        else none
      | none => none)

/-- Inner scan of the camera-correlation loop
(run_video_prompts_validated_v2.py:1410-1416): walk the camera timeline in
order until an entry within half a second of the cut; an unparsable camera
key reached on the way raises (`abs(None - time)`). -/
def cameraScan (time : ℤ) : List (String × CamEntry) → PyEx Bool
  | [] => pure false
  | (ts, _) :: rest =>
    match parseTimestampToSeconds ts with
    | none => throw "TypeError: unsupported operand type: NoneType and int"
    | some t =>
      if |(t : ℚ) - (time : ℚ)| < 1 / 2 then pure true
      else cameraScan time rest

/-- `camera_movement_cuts` (run_video_prompts_validated_v2.py:1406-1416):
number of cuts with a camera-distance entry within half a second. -/
def cameraMovementCutsOf (sceneChanges : List SceneCut)
    (cameraDistanceTimeline : List (String × CamEntry)) : PyEx ℕ :=
  if !cameraDistanceTimeline.isEmpty then
    sceneChanges.foldlM (fun (cnt : ℕ) sc => do
      let found ← cameraScan sc.time cameraDistanceTimeline
      pure (if found then cnt + 1 else cnt)) 0
  else pure 0

/-- `shot_type_changes` (run_video_prompts_validated_v2.py:1417-1422):
distance-label changes over the string-sorted camera keys (a falsy
previous label — `None` or the empty string — never counts). -/
def shotTypeChangesOf (cameraDistanceTimeline : List (String × CamEntry)) :
    ℕ :=
  if !cameraDistanceTimeline.isEmpty then
    let sortedKeys := sortStable (fun a b => decide (a < b))
      (cameraDistanceTimeline.map Prod.fst)
    (sortedKeys.foldl (fun (st : ℕ × Option String) ts =>
      let distance := (alookup cameraDistanceTimeline ts).bind
        (fun e => e.distance)
      let changed :=
        match st.2 with
        | some last => decide (last ≠ "") && decide (distance ≠ some last)
        | none => false
      (if changed then st.1 + 1 else st.1, distance)) (0, none)).1
  else 0

/-- The pacing curve (run_video_prompts_validated_v2.py:1424-1435): cut
counts per 10-second window. -/
def pacingCurveOf (sceneChanges : List SceneCut) (videoDuration : ℚ) :
    List (String × ℕ) :=
  (pyRangeStep (pyTrunc videoDuration) 10).map (fun i =>
    let we : ℕ := min (i + 10) (pyTrunc videoDuration).toNat
    (toString i ++ "-" ++ toString we ++ "s",
      (sceneChanges.filter (fun sc =>
        decide ((i : ℤ) ≤ sc.time) && decide (sc.time < (we : ℤ)))).length))

/-- `first_half_cuts` (run_video_prompts_validated_v2.py:1439): cuts
strictly before the midpoint. -/
def firstHalfCutsOf (sceneChanges : List SceneCut) (videoDuration : ℚ) :
    ℕ :=
  (sceneChanges.filter
    (fun sc => decide ((sc.time : ℚ) < videoDuration / 2))).length

/-- `second_half_cuts` (run_video_prompts_validated_v2.py:1440): cuts at or
after the midpoint. -/
def secondHalfCutsOf (sceneChanges : List SceneCut) (videoDuration : ℚ) :
    ℕ :=
  (sceneChanges.filter
    (fun sc => decide ((sc.time : ℚ) ≥ videoDuration / 2))).length

/-- The acceleration score (run_video_prompts_validated_v2.py:1437-1445):
`(second_half − first_half)/first_half` cuts, with the zero-denominator
case defined as `0` when the second half also has no cuts and `1`
otherwise. -/
def accelerationScoreOf (sceneChanges : List SceneCut)
    (videoDuration : ℚ) : ℚ :=
  let firstHalfCuts := firstHalfCutsOf sceneChanges videoDuration
  let secondHalfCuts := secondHalfCutsOf sceneChanges videoDuration
  if firstHalfCuts > 0 then
    ((secondHalfCuts : ℚ) - firstHalfCuts) / firstHalfCuts
  else if secondHalfCuts = 0 then 0 else 1

/-- `cut_density_zones` (run_video_prompts_validated_v2.py:1447-1454):
windows at 80% or more of the peak window's cut count. -/
def cutDensityZonesOf (pacingCurve : List (String × ℕ)) : List String :=
  if !pacingCurve.isEmpty then
    let maxCuts := listMaxNat (pacingCurve.map Prod.snd)
    let threshold : ℚ := (maxCuts : ℚ) * (4 / 5)
    (pacingCurve.filter (fun w =>
      decide ((w.2 : ℚ) ≥ threshold) && decide (maxCuts > 0))).map Prod.fst
  else []

/-- The `pacing_tags` list (run_video_prompts_validated_v2.py:1465-1492),
in the source's append order. -/
def pacingTagsOf (pacingClassification : String) (avgShot : ℚ)
    (accelerationScore : ℚ) (rhythmClass : String)
    (cutDensityZones : List String) (varS : ℚ) : List String :=
  let tags1 :=
    if pacingClassification = "fast" ∨ pacingClassification = "very_fast" ∨
        avgShot < 4 then ["quick_cuts"] else []
  let tags2 :=
    if accelerationScore > 3 / 10 then ["accelerating_pace"]
    else if accelerationScore < -(3 / 10) then ["decelerating_pace"]
    else []
  let tags3 := if rhythmClass = "consistent" then ["rhythmic_editing"] else []
  let tags4 := if cutDensityZones.length > 0 then ["has_montage_sections"]
    else []
  let tags5 := if avgShot < 3 / 2 then ["mtv_style"] else []
  let tags6 := if varS > avgShot then ["experimental_pacing"] else []
  tags1 ++ tags2 ++ tags3 ++ tags4 ++ tags5 ++ tags6

/-- The energy curve (run_video_prompts_validated_v2.py:1394-1403):
`(cumulative time, 1/duration)` per shot. -/
def energyCurveOf (shotDurations : List ℚ) : List (ℚ × ℚ) :=
  (shotDurations.foldl (fun (st : ℚ × List (ℚ × ℚ)) d =>
    let energy := if d > 0 then 1 / d else 1
    (st.1 + d, st.2 ++ [(st.1, energy)])) (0, [])).2

/-- `complexity_changes` (run_video_prompts_validated_v2.py:1342-1349):
consecutive sorted keys whose object-kind counts differ by more than 2. -/
def complexityChangesOf (timestamps : List String)
    (objectTimeline : List (String × ObjEntry)) : ℕ :=
  if !objectTimeline.isEmpty then
    ((timestamps.zip timestamps.tail).filter (fun p =>
      let prevObjects := ((alookup objectTimeline p.1).map
        (fun e => e.objects.length)).getD 0
      let currObjects := ((alookup objectTimeline p.2).map
        (fun e => e.objects.length)).getD 0
      decide (((currObjects : ℤ) - prevObjects).natAbs > 2))).length
  else 0

/-- `compute_scene_pacing_metrics`
(run_video_prompts_validated_v2.py:1242-1531).  The camera-correlation
loop can raise on an unparsable camera key (see `cameraScan`); everything
else is total. -/
def computeScenePacingMetrics (sceneTimeline : List (String × SceneEntry))
    (videoDuration : ℚ)
    (objectTimeline : List (String × ObjEntry) := [])
    (cameraDistanceTimeline : List (String × CamEntry) := []) :
    PyEx ScenePacingMetrics := do
  let timestamps := sortedSceneKeys sceneTimeline
  let shotDurations := shotDurationsLoop videoDuration timestamps
  let sceneChanges := sceneCutsOf sceneTimeline
  let totalShots := sceneChanges.length + 1
  let avgShot := if shotDurations.isEmpty then videoDuration
    else listMean shotDurations
  let cutFrequency : ℚ :=
    if videoDuration > 0 then
      ((sceneChanges.length : ℚ) / videoDuration) * 60
    else 0
  let pacingClassification :=
    if cutFrequency < 10 then "slow"
    else if cutFrequency < 20 then "moderate"
    else if cutFrequency < 40 then "fast"
    else "very_fast"
  let varS := if shotDurations.length > 1 then sampleVariance shotDurations
    else 0
  let rhythmClass :=
    if shotDurations.length > 1 then
      if sqrtLt varS (3 / 7) then "consistent"
      else if sqrtLt varS (3 / 2) then "varied"
      else "erratic"
    else "consistent"
  let accelPhases :=
    if shotDurations.length ≥ 3 then
      ((shotDurations.zip (shotDurations.tail.zip
        shotDurations.tail.tail)).filter (fun t =>
          decide (t.1 > t.2.1) && decide (t.2.1 > t.2.2))).length
    else 0
  let peakMomentCount :=
    ((List.range (shotDurations.length - 3)).filter (fun i =>
      decide (listMean ((shotDurations.drop i).take 3) <
        avgShot * (1 / 2)))).length
  let cameraMovementCuts ← cameraMovementCutsOf sceneChanges
    cameraDistanceTimeline
  let pacingCurve := pacingCurveOf sceneChanges videoDuration
  let accelerationScore := accelerationScoreOf sceneChanges videoDuration
  let cutDensityZones := cutDensityZonesOf pacingCurve
  let visualLoad : ℚ :=
    if !objectTimeline.isEmpty ∧ totalShots > 0 then
      (objectTimeline.map (fun e => (e.2.objects.map Prod.snd).sum)).sum /
        totalShots
    else 0
  pure
    { total_shots := totalShots,
      avg_shot_duration := avgShot,
      shots_per_minute := cutFrequency,
      shortest_shot := if shotDurations.isEmpty then videoDuration
        else listMin shotDurations,
      longest_shot := if shotDurations.isEmpty then videoDuration
        else listMax shotDurations,
      shot_duration_variance := varS,
      pacing_classification := pacingClassification,
      rhythm_consistency := rhythmClass,
      pacing_curve := pacingCurve,
      acceleration_score := accelerationScore,
      cut_density_zones := cutDensityZones,
      intro_pacing := (sceneChanges.filter
        (fun sc => decide ((sc.time : ℚ) < 3))).length,
      outro_pacing := (sceneChanges.filter
        (fun sc => decide ((sc.time : ℚ) > videoDuration - 3))).length,
      visual_load_per_scene := visualLoad,
      shot_type_changes := shotTypeChangesOf cameraDistanceTimeline,
      pacing_tags := pacingTagsOf pacingClassification avgShot
        accelerationScore rhythmClass cutDensityZones varS,
      cut_frequency := cutFrequency,
      min_shot_duration := if shotDurations.isEmpty then videoDuration
        else listMin shotDurations,
      max_shot_duration := if shotDurations.isEmpty then videoDuration
        else listMax shotDurations,
      rhythm_variability_sq := varS,
      shot_distribution :=
        { short := (shotDurations.filter (fun d => decide (d < 2))).length,
          medium := (shotDurations.filter
            (fun d => decide (2 ≤ d) && decide (d < 5))).length,
          long := (shotDurations.filter (fun d => decide (d ≥ 5))).length },
      acceleration_phases := accelPhases,
      complexity_changes := complexityChangesOf timestamps objectTimeline,
      montage_segments := montageCount shotDurations,
      peak_pacing_moments := peakMomentCount,
      energy_curve := (energyCurveOf shotDurations).take 10,
      camera_movement_cuts := cameraMovementCuts,
      scene_changes := sceneChanges }

/-! ## Regular-expression matching for hook/CTA detection

Every hook/CTA pattern in the source is an alternation of literal phrases,
either wrapped in word boundaries (`\b(...)\b`) or anchored at the start
(`^(...)`).  The matcher below implements exactly `re.finditer` semantics
for this pattern class: scan left to right, at each position try the
alternatives in order (an alternative that matches the text but fails the
trailing boundary backtracks to the next one), and continue after the end
of each match. -/

/-- Python regex word character (`\w`, ASCII range). -/
def isWordChar (c : Char) : Bool :=
  c.isAlphanum || c = '_'

/-- Try the alternatives in order at the head of `s`; with `trailing` the
match must end at a word boundary. -/
def altMatchAt (alts : List String) (s : List Char) (trailing : Bool) :
    Option String :=
  alts.findSome? (fun a =>
    let al := a.toList
    if al.isPrefixOf s then
      if trailing then
        match s.drop al.length with
        | [] => some a
        | c :: _ => if isWordChar c then none else some a
      else some a
    else none)

/-- `re.finditer` for a boundary-wrapped alternation: all non-overlapping
matches with their start indices.  The fuel argument only drives
structural termination; each step consumes at least one character, so
`length + 1` fuel never runs out. -/
def reScan (alts : List String) :
    ℕ → Option Char → List Char → ℕ → List (ℕ × String)
  | 0, _, _, _ => []
  | _ + 1, prev, [], idx =>
    let bOk := match prev with | none => true | some c => !isWordChar c
    match (if bOk then altMatchAt alts [] true else none) with
    | some a => [(idx, a)]
    | none => []
  | fuel + 1, prev, c :: rest, idx =>
    let bOk := match prev with | none => true | some c => !isWordChar c
    match (if bOk then altMatchAt alts (c :: rest) true else none) with
    | some a =>
      let k := max 1 a.length
      (idx, a) :: reScan alts fuel (((c :: rest).take k).getLast?)
        ((c :: rest).drop k) (idx + k)
    | none => reScan alts fuel (some c) rest (idx + 1)

/-- All matches of a boundary-wrapped alternation in `s`. -/
def reFindAllBounded (alts : List String) (s : String) :
    List (ℕ × String) :=
  reScan alts (s.toList.length + 1) none s.toList 0

/-- All matches of an anchored `^(...)` alternation in `s` (at most one,
at position 0, no trailing boundary). -/
def reFindAllAnchored (alts : List String) (s : String) :
    List (ℕ × String) :=
  match altMatchAt alts s.toList false with
  | some a => [(0, a)]
  | none => []

/-- The five hook pattern groups
(run_video_prompts_validated_v2.py:1722-1728): alternatives, category,
and whether the pattern is start-anchored (the greeting). -/
def hookPatterns : List (List String × String × Bool) :=
  [(["did you know", "guess what", "wait for it", "watch this",
      "check this out"], ("question", false)),
    (["amazing", "incredible", "mind-blowing", "shocking", "unbelievable"],
      ("hyperbole", false)),
    (["you won't believe", "you need to see", "this will change"],
      ("promise", false)),
    (["hey", "hi", "hello", "what's up"], ("greeting", true)),
    (["secret", "trick", "hack", "tip"], ("value_prop", false))]

/-- The five CTA pattern groups
(run_video_prompts_validated_v2.py:1764-1770). -/
def ctaPatterns : List (List String × String) :=
  [(["follow", "like", "subscribe", "comment", "share", "hit the"],
      "engagement"),
    (["link in bio", "check out", "visit", "go to"], "traffic"),
    (["buy", "purchase", "get yours", "order now"], "conversion"),
    (["save this", "bookmark", "remember"], "save"),
    (["tag someone", "send this", "share with"], "viral")]

/-! ## `compute_speech_analysis_metrics`
(run_video_prompts_validated_v2.py:1534-1830, metric groups 1, 3, 4, 5) -/

/-- A speech segment (`{start, end, text, confidence}`; the `end` key is
rendered `stop` because `end` is reserved in Lean).  `Option` models an
absent key, read through the source's `.get` defaults. -/
structure SpeechSegment where
  start : Option ℚ
  stop : Option ℚ
  text : Option String
  confidence : Option ℚ
deriving DecidableEq

/-- A detected pause (run_video_prompts_validated_v2.py:1699-1703). -/
structure PauseGap where
  start : ℚ
  duration : ℚ
  type : String
deriving DecidableEq

/-- The `pause_analysis` block
(run_video_prompts_validated_v2.py:1711-1718). -/
structure PauseAnalysis where
  gaps : List PauseGap
  total_pause_time : ℚ
  pause_count : ℕ
  longest_pause_duration : ℚ
  strategic_pauses : ℕ
  awkward_pauses : ℕ
deriving DecidableEq

/-- A hook phrase record (run_video_prompts_validated_v2.py:1740-1745). -/
structure HookPhrase where
  text : String
  timestamp : ℚ
  type : String
  confidence : ℚ
deriving DecidableEq

/-- A CTA phrase record (run_video_prompts_validated_v2.py:1785-1790). -/
structure CtaPhrase where
  text : String
  timestamp : ℚ
  urgency : String
  category : String
deriving DecidableEq

/-- A CTA cluster (run_video_prompts_validated_v2.py:1811-1815; the `end`
key is rendered `stop`). -/
structure CtaCluster where
  start : ℚ
  stop : ℚ
  count : ℕ
deriving DecidableEq

/-- Pause/gap analysis (run_video_prompts_validated_v2.py:1684-1709):
gaps longer than one second between consecutive segments sorted by start;
`dramatic` above 2s, overridden to `awkward` above 3s, else
`strategic`. -/
def pauseAnalysisOf (speechSegments : List SpeechSegment) : PauseAnalysis :=
  let gaps :=
    if speechSegments.isEmpty then []
    else
      let sorted := sortStable
        (fun a b => decide (a.start.getD 0 < b.start.getD 0)) speechSegments
      (sorted.zip sorted.tail).filterMap (fun p =>
        let gapStart := p.1.stop.getD 0
        let gapEnd := p.2.start.getD 0
        let gapDuration := gapEnd - gapStart
        if gapDuration > 1 then
          let gapType0 := if gapDuration > 2 then "dramatic" else "strategic"
          let gapType := if gapDuration > 3 then "awkward" else gapType0
          some
            { start := gapStart, duration := gapDuration,
              type := gapType : PauseGap }
        else none)
  { gaps := gaps,
    total_pause_time := (gaps.map (fun g => g.duration)).sum,
    pause_count := gaps.length,
    longest_pause_duration :=
      if gaps.isEmpty then 0 else listMax (gaps.map (fun g => g.duration)),
    strategic_pauses := (gaps.filter (fun g =>
      decide (g.type = "strategic"))).length,
    awkward_pauses := (gaps.filter (fun g =>
      decide (g.type = "awkward"))).length }

/-- Number of whitespace-separated words in the first `idx` characters
(`len(lower_transcript[:match.start()].split())`). -/
def wordPositionAt (lower : String) (idx : ℕ) : ℕ :=
  (pyWords (String.mk (lower.toList.take idx))).length

/-- Hook detection (run_video_prompts_validated_v2.py:1720-1745): run each
pattern group over the lower-cased transcript; each match's timestamp is
interpolated from its word position. -/
def hookPhrasesOf (transcript : String) (wordCount : ℕ) (speechTime : ℚ) :
    List HookPhrase :=
  let lower := if transcript = "" then "" else pyLower transcript
  hookPatterns.foldl (fun acc pat =>
    let found :=
      if pat.2.2 then reFindAllAnchored pat.1 lower
      else reFindAllBounded pat.1 lower
    acc ++ found.map (fun m =>
      let wordPosition := wordPositionAt lower m.1
      let estimatedTime : ℚ :=
        if wordCount > 0 then
          (wordPosition : ℚ) / wordCount * speechTime
        else 0
      { text := m.2, timestamp := estimatedTime, type := pat.2.1,
        confidence := 4 / 5 : HookPhrase })) []

/-- Per-10-second densities (run_video_prompts_validated_v2.py:1747-1752
and 1792-1797): `defaultdict(int)` keyed `"w-(w+10)s"` with
`w = int(t/10)*10`, keys in first-touch order. -/
def densityPer10s (timestamps : List ℚ) : List (String × ℚ) :=
  timestamps.foldl (fun acc t =>
    let w : ℤ := pyTrunc (t / 10) * 10
    bumpCount acc (toString w ++ "-" ++ toString (w + 10) ++ "s") 1) []

/-- CTA detection (run_video_prompts_validated_v2.py:1762-1790): like hook
detection, plus an urgency level from the matched text and its position. -/
def ctaPhrasesOf (transcript : String) (wordCount : ℕ) (speechTime : ℚ) :
    List CtaPhrase :=
  let lower := if transcript = "" then "" else pyLower transcript
  ctaPatterns.foldl (fun acc pat =>
    let found := reFindAllBounded pat.1 lower
    acc ++ found.map (fun m =>
      let wordPosition := wordPositionAt lower m.1
      let estimatedTime : ℚ :=
        if wordCount > 0 then
          (wordPosition : ℚ) / wordCount * speechTime
        else 0
      let urgency :=
        if strContains (pyLower m.2) "now" ∨ strContains (pyLower m.2) "today"
            ∨ strContains (pyLower m.2) "quick" then "high"
        else if estimatedTime > speechTime * (7 / 10) then "medium"
        else "low"
      { text := m.2, timestamp := estimatedTime, urgency := urgency,
        category := pat.2 : CtaPhrase })) []

/-- CTA clustering (run_video_prompts_validated_v2.py:1799-1825): group
timestamp-sorted CTAs less than 5 seconds apart; groups of at least two
become clusters. -/
def ctaClusteringOf (ctaPhrases : List CtaPhrase) : List CtaCluster :=
  if ctaPhrases.isEmpty then []
  else
    let sorted := sortStable
      (fun a b => decide (a.timestamp < b.timestamp)) ctaPhrases
    match sorted with
    | [] => []
    | c0 :: rest =>
      let st := rest.foldl
        (fun (st : ℚ × ℚ × ℕ × List CtaCluster) c =>
          let clusterStart := st.1
          let prevTs := st.2.1
          let clusterCount := st.2.2.1
          let acc := st.2.2.2
          if c.timestamp - prevTs < 5 then
            (clusterStart, c.timestamp, clusterCount + 1, acc)
          else
            let acc' :=
              if clusterCount ≥ 2 then
                acc ++
                  [{ start := clusterStart, stop := prevTs,
                     count := clusterCount : CtaCluster }]
              else acc
            (c.timestamp, c.timestamp, 1, acc'))
        (c0.timestamp, c0.timestamp, 1, [])
      let lastTs := ((sorted.map (fun c => c.timestamp)).getLast?).getD 0
      if st.2.2.1 ≥ 2 then
        st.2.2.2 ++
          [{ start := st.1, stop := lastTs,
             count := st.2.2.1 : CtaCluster }]
      else st.2.2.2

/-- The embedded portion of the `compute_speech_analysis_metrics` return
value: basic speech statistics (group 1), pause analysis (group 3), hook
detection (group 4) and CTA analysis (group 5). -/
structure SpeechAnalysis where
  word_count : ℕ
  speech_density : ℚ
  speech_coverage : ℚ
  speech_rate_wpm : ℚ
  first_word_timestamp : ℚ
  last_word_timestamp : ℚ
  pause_analysis : PauseAnalysis
  hook_density_per_10s : List (String × ℚ)
  hook_phrases : List HookPhrase
  opening_hook_strength : ℚ
  cta_density_per_10s : List (String × ℚ)
  cta_phrases : List CtaPhrase
  cta_clustering : List CtaCluster
deriving DecidableEq

/-- `compute_speech_analysis_metrics`
(run_video_prompts_validated_v2.py:1534-1830), restricted to metric groups
1, 3, 4 and 5 (basic stats, pauses, hooks, CTAs).  The expression/gesture
timeline and enhanced-human-data parameters feed only the later groups and
are omitted here. -/
def computeSpeechAnalysisMetrics (speechTimeline : List (String × J))
    (transcript : String) (speechSegments : List SpeechSegment)
    (videoDuration : ℚ) : SpeechAnalysis :=
  let wordCount := if transcript = "" then 0 else (pyWords transcript).length
  let speechTime : ℚ := (speechSegments.map (fun s =>
    s.stop.getD 0 - s.start.getD 0)).sum
  let parsedTimes := speechTimeline.filterMap
    (fun p => parseTimestampToSeconds p.1)
  let firstWord : ℚ :=
    match parsedTimes with
    | [] => 0
    | t :: ts => ((ts.foldl min t : ℤ) : ℚ)
  let lastWord : ℚ := ((parsedTimes.foldl max 0 : ℤ) : ℚ)
  let hookPhrases := hookPhrasesOf transcript wordCount speechTime
  let ctaPhrases := ctaPhrasesOf transcript wordCount speechTime
  let openingHooks := (hookPhrases.filter
    (fun h => decide (h.timestamp < 3))).length
  { word_count := wordCount,
    speech_density := if videoDuration > 0 then
      (wordCount : ℚ) / videoDuration else 0,
    speech_coverage := if videoDuration > 0 then
      speechTime / videoDuration else 0,
    speech_rate_wpm := if speechTime > 0 then
      (wordCount : ℚ) / speechTime * 60 else 0,
    first_word_timestamp := firstWord,
    last_word_timestamp := lastWord,
    pause_analysis := pauseAnalysisOf speechSegments,
    hook_density_per_10s := densityPer10s
      (hookPhrases.map (fun h => h.timestamp)),
    hook_phrases := hookPhrases.take 10,
    opening_hook_strength := min ((openingHooks : ℚ) / 2) 1,
    cta_density_per_10s := densityPer10s
      (ctaPhrases.map (fun c => c.timestamp)),
    cta_phrases := ctaPhrases.take 10,
    cta_clustering := ctaClusteringOf ctaPhrases }

/-! ## Supporting definitions and lemmas for the claim theorems -/

instance {ε α : Type} [DecidableEq ε] [DecidableEq α] :
    DecidableEq (Except ε α) := fun a b =>
  match a, b with
  | .ok x, .ok y =>
    if h : x = y then .isTrue (by rw [h]) else .isFalse (by simp [h])
  | .error e, .error f =>
    if h : e = f then .isTrue (by rw [h]) else .isFalse (by simp [h])
  | .ok _, .error _ => .isFalse (by simp)
  | .error _, .ok _ => .isFalse (by simp)

theorem pyBind_ok {α β : Type} (a : α) (f : α → PyEx β) :
    (Except.ok a : PyEx α) >>= f = f a := rfl

theorem pyBind_error {α β : Type} (e : String) (f : α → PyEx β) :
    (Except.error e : PyEx α) >>= f = Except.error e := rfl

theorem pyPure_eq {α : Type} (a : α) : (pure a : PyEx α) = Except.ok a := rfl

theorem length_mapExcept {α β : Type} (f : α → PyEx β) :
    ∀ (l : List α) (ys : List β), mapExcept f l = .ok ys → ys.length = l.length
  | [], ys, h => by
    rw [mapExcept] at h
    cases h
    rfl
  | x :: xs, ys, h => by
    rw [mapExcept] at h
    cases hf : f x with
    | error e => rw [hf] at h; cases h
    | ok y =>
      rw [hf] at h
      cases hm : mapExcept f xs with
      | error e => rw [hm] at h; cases h
      | ok ys2 =>
        rw [hm] at h
        cases h
        rw [List.length_cons, List.length_cons,
          length_mapExcept f xs ys2 hm]

theorem foldlM_ok_invariant {σ γ : Type} (P : σ → Prop) (f : σ → γ → PyEx σ) :
    ∀ (l : List γ) (s : σ), P s →
      (∀ t c, c ∈ l → P t → ∃ t2, f t c = .ok t2 ∧ P t2) →
      ∃ s2, l.foldlM f s = .ok s2 ∧ P s2
  | [], s, hs, _ => ⟨s, by rw [List.foldlM_nil]; rfl, hs⟩
  | c :: l, s, hs, h => by
    obtain ⟨t2, hf, ht2⟩ := h s c (List.mem_cons_self c l) hs
    obtain ⟨s2, hfold, hs2⟩ := foldlM_ok_invariant P f l t2 ht2
      (fun t d hd => h t d (List.mem_cons_of_mem c hd))
    exact ⟨s2, by rw [List.foldlM_cons, hf, pyBind_ok]; exact hfold, hs2⟩

theorem foldl_filter_skip {σ γ : Type} (step : σ → γ → σ) (keep : γ → Bool)
    (l : List γ) (h : ∀ c ∈ l, keep c = false → ∀ s, step s c = s) :
    ∀ s : σ, (l.filter keep).foldl step s = l.foldl step s := by
  induction l with
  | nil => intro s; rfl
  | cons c l ih =>
    intro s
    cases hk : keep c with
    | true =>
      rw [List.filter_cons, if_pos hk, List.foldl_cons, List.foldl_cons]
      exact ih (fun d hd => h d (List.mem_cons_of_mem c hd)) (step s c)
    | false =>
      rw [List.filter_cons, if_neg (by simp [hk]), List.foldl_cons,
        h c (List.mem_cons_self c l) hk s]
      exact ih (fun d hd => h d (List.mem_cons_of_mem c hd)) s

theorem filterMap_filter_skip {γ δ : Type} (f : γ → Option δ) (keep : γ → Bool)
    (l : List γ) (h : ∀ c ∈ l, keep c = false → f c = none) :
    (l.filter keep).filterMap f = l.filterMap f := by
  induction l with
  | nil => rfl
  | cons c l ih =>
    have ih2 := ih (fun d hd => h d (List.mem_cons_of_mem c hd))
    cases hk : keep c with
    | true =>
      rw [List.filter_cons, if_pos hk]
      cases hfc : f c with
      | none => simp only [List.filterMap_cons, hfc, ih2]
      | some b => simp only [List.filterMap_cons, hfc, ih2]
    | false =>
      rw [List.filter_cons, if_neg (by simp [hk])]
      simp only [List.filterMap_cons, h c (List.mem_cons_self c l) hk, ih2]

theorem mem_foldl_append {γ δ : Type} (g : γ → List δ) :
    ∀ (l : List γ) (init : List δ) (x : δ),
      (x ∈ init ∨ ∃ c ∈ l, x ∈ g c) →
      x ∈ l.foldl (fun acc c => acc ++ g c) init := by
  intro l
  induction l with
  | nil =>
    intro init x h
    rcases h with h | ⟨c, hc, _⟩
    · exact h
    · cases hc
  | cons c l ih =>
    intro init x h
    rw [List.foldl_cons]
    apply ih
    rcases h with h | ⟨d, hd, hx⟩
    · exact Or.inl (List.mem_append_left _ h)
    · rcases List.mem_cons.mp hd with rfl | hd2
      · exact Or.inl (List.mem_append_right _ hx)
      · exact Or.inr ⟨d, hd2, hx⟩

theorem alookup_isSome_of_hasKey {K V : Type} [DecidableEq K]
    (l : List (K × V)) (k : K) (h : dictHasKey l k = true) :
    ∃ v, alookup l k = some v := by
  rw [dictHasKey, List.any_eq_true] at h
  obtain ⟨p, hp, hpk⟩ := h
  rw [alookup]
  cases hf : l.find? (fun p => p.1 = k) with
  | some q => exact ⟨q.2, rfl⟩
  | none =>
    have hnone := List.find?_eq_none.mp hf p hp
    exact absurd hpk hnone

theorem mem_of_alookup {K V : Type} [DecidableEq K]
    (l : List (K × V)) (k : K) (v : V) (h : alookup l k = some v) :
    (k, v) ∈ l := by
  rw [alookup] at h
  cases hf : l.find? (fun p => p.1 = k) with
  | none => rw [hf] at h; cases h
  | some p =>
    rw [hf] at h
    have hm := List.mem_of_find?_eq_some hf
    have hk := List.find?_some hf
    have hpk : p.1 = k := by simpa using hk
    have hv : p.2 = v := by simpa using h
    rw [← hpk, ← hv]
    exact hm

theorem str_ne_append (a b : String) (i : ℕ) (h2 : i < b.data.length)
    (hne : a.data[i]? ≠ b.data[i]?) (y : String) : a ≠ b ++ y := by
  intro h
  apply hne
  have hd : a.data = b.data ++ y.data := by rw [← String.data_append, h]
  rw [hd]
  exact List.getElem?_append_left h2

theorem sample_div_le (n M : ℕ) (h1 : 1 ≤ M) (h2 : M < n) :
    (n + max 1 (n / M) - 1) / max 1 (n / M) ≤ 2 * M - 1 := by
  have hM : 0 < M := h1
  have hq1 : 1 ≤ n / M := (Nat.one_le_div_iff hM).mpr (le_of_lt h2)
  rw [max_eq_right hq1]
  have hr : n % M < M := Nat.mod_lt _ hM
  have hdm : M * (n / M) + n % M = n := Nat.div_add_mod n M
  have h3 : n ≤ M * (n / M) + (M - 1) := by omega
  have h4 : M - 1 ≤ (n / M) * (M - 1) := Nat.le_mul_of_pos_left (M - 1) hq1
  have h5 : n ≤ M * (n / M) + (n / M) * (M - 1) := le_trans h3 (by omega)
  have h6 : M * (n / M) + (n / M) * (M - 1) = (n / M) * (2 * M - 1) := by
    have he : 2 * M - 1 = M + (M - 1) := by omega
    rw [he, Nat.mul_add, Nat.mul_comm (n / M) M]
  apply (Nat.div_le_iff_le_mul_add_pred (by omega)).mpr
  rw [h6] at h5
  omega

/-- The entries of a timeline whose key's leading dash-segment parses under
`parse_timestamp_to_seconds` (the well-formed entries, in the sense of the
robustness property). -/
def filterParseable {β : Type} (tl : List (String × β)) :
    List (String × β) :=
  tl.filter (fun p => (parseTimestampToSeconds p.1).isSome)

/-- Drop unparsable-key entries from the five per-second modality
timelines (the scene-change timeline feeds only a length and is kept). -/
def filterParseableTimelines (t : DensityTimelines) : DensityTimelines :=
  { text := filterParseable t.text,
    sticker := filterParseable t.sticker,
    gesture := filterParseable t.gesture,
    expression := filterParseable t.expression,
    object := filterParseable t.object,
    sceneChange := t.sceneChange }

theorem densityPass_filterParseable {β : Type} (secondsZ : ℤ)
    (countOf : β → ℚ) (upd : ElemCounts → ℚ → ElemCounts)
    (st : List ℚ × List ElemCounts) (tl : List (String × β)) :
    densityPass secondsZ countOf upd st (filterParseable tl) =
      densityPass secondsZ countOf upd st tl := by
  rw [densityPass, densityPass, filterParseable]
  apply foldl_filter_skip
  intro c _ hc s
  cases hp : parseTimestampToSeconds c.1 with
  | some v => simp [hp] at hc
  | none => simp [hp]

theorem densityArrays_filterParseable (t : DensityTimelines) (secondsZ : ℤ) :
    densityArrays (filterParseableTimelines t) secondsZ =
      densityArrays t secondsZ := by
  simp only [densityArrays, filterParseableTimelines,
    densityPass_filterParseable]

theorem emotionSamples_filterParseable
    (expressionTimeline : List (String × ExprEntry)) (duration : ℚ)
    (sampleInterval : ℕ) :
    emotionSamples (filterParseable expressionTimeline) duration
      sampleInterval = emotionSamples expressionTimeline duration
      sampleInterval := by
  simp only [emotionSamples]
  congr 1
  funext i
  rw [filterParseable, filterMap_filter_skip]
  intro c _ hc
  cases hp : parseTimestampToSeconds c.1 with
  | some v => simp [hp] at hc
  | none => simp [hp]

theorem alignCounts_filterParseable
    (expressionTimeline : List (String × ExprEntry))
    (gestureTimeline : List (String × GestureEntry))
    (h : ∀ p ∈ expressionTimeline, parseTimestampToSeconds p.1 = none →
      alookup gestureTimeline p.1 = none) :
    emotionGestureAlignCounts (filterParseable expressionTimeline)
        gestureTimeline =
      emotionGestureAlignCounts expressionTimeline gestureTimeline := by
  rw [emotionGestureAlignCounts, emotionGestureAlignCounts, filterParseable]
  apply foldl_filter_skip
  intro c hc hkeep s
  have hp : parseTimestampToSeconds c.1 = none := by
    cases hq : parseTimestampToSeconds c.1
    · rfl
    · simp [hq] at hkeep
  rw [h c hc hp]

/-- The rendered value of any field of an object is an infix of the
rendered object. -/
theorem dumpsObj_mem :
    ∀ (l : List (String × J)) (nm : String) (tl : J),
      (nm, tl) ∈ l → dumpsJ tl <:+: dumpsObj l
  | [(k, v)], nm, tl, h => by
    rcases List.mem_singleton.mp h with heq
    cases heq
    rw [dumpsObj]
    exact ⟨dumpsStr k ++ [':', ' '], [], by simp⟩
  | (k, v) :: f :: xs, nm, tl, h => by
    rw [dumpsObj]
    rcases List.mem_cons.mp h with heq | h2
    · cases heq
      exact ⟨dumpsStr k ++ [':', ' '], ',' :: ' ' :: dumpsObj (f :: xs),
        by simp⟩
    · refine (dumpsObj_mem (f :: xs) nm tl h2).trans ?_
      exact ⟨dumpsStr k ++ ':' :: ' ' :: dumpsJ v ++ [',', ' '], [], by simp⟩

theorem strContains_lower_of_infix (l : List Char) (p : String)
    (h : p.toList <:+: l.map Char.toLower) :
    strContains (pyLower (String.mk l)) p = true := by
  rw [strContains, hasInfix_iff]
  exact h

theorem foldlM_extend_ok {γ : Type} (f : List String → γ → PyEx (List String))
    (ext : γ → List String)
    (hf : ∀ acc c, f acc c = .ok (acc ++ ext c)) :
    ∀ (pats : List γ) (acc : List String),
      ∃ ws, pats.foldlM f acc = .ok ws ∧
        (∀ x ∈ acc, x ∈ ws) ∧
        (∀ c ∈ pats, ∀ x ∈ ext c, x ∈ ws)
  | [], acc =>
    ⟨acc, by rw [List.foldlM_nil]; rfl, fun x hx => hx,
      fun c hc => absurd hc (List.not_mem_nil c)⟩
  | c :: cs, acc => by
    rw [List.foldlM_cons, hf acc c, pyBind_ok]
    obtain ⟨ws, hws, hsub, hmem⟩ := foldlM_extend_ok f ext hf cs (acc ++ ext c)
    refine ⟨ws, hws, fun x hx => hsub x (List.mem_append_left _ hx), ?_⟩
    intro d hd x hx
    rcases List.mem_cons.mp hd with rfl | hd2
    · exact hsub x (List.mem_append_right _ hx)
    · exact hmem d hd2 x hx

theorem strContains_found_msg (nm : String) :
    strContains ("'" ++ "swipe up" ++ "' found in " ++ nm) "swipe up" =
      true := by
  rw [strContains, hasInfix_iff]
  refine ⟨"'".toList, "' found in ".toList ++ nm.toList, ?_⟩
  show "'".data ++ "swipe up".data ++ ("' found in ".data ++ nm.data) =
    ("'" ++ "swipe up" ++ "' found in " ++ nm).data
  simp only [String.data_append, List.append_assoc]

/-! ## The claim theorems -/

section ClaimTheorems

attribute [local semireducible] Rat.add Rat.sub Rat.mul Rat.inv

/-- C10: on the round-trip scenario (duration 15, segments `[0,2]` and
`[5,8]` with texts "hello world" and "watch this amazing trick now"), the
speech engine reports `word_count = 7` (not 6: the transcript has seven
whitespace-separated words) and classifies the single 3-second pause as
"dramatic" (the `> 2s` rule fires at 3s), so the claimed `word_count = 6`
and "strategic" classification are both false. -/
theorem C10_round_trip_counterexample :
    ¬ ((computeSpeechAnalysisMetrics []
        "hello world watch this amazing trick now"
        [⟨some 0, some 2, some "hello world", none⟩,
         ⟨some 5, some 8, some "watch this amazing trick now", none⟩]
        15).word_count = 6) ∧
    (computeSpeechAnalysisMetrics []
        "hello world watch this amazing trick now"
        [⟨some 0, some 2, some "hello world", none⟩,
         ⟨some 5, some 8, some "watch this amazing trick now", none⟩]
        15).pause_analysis.gaps.map (fun g => g.type) = ["dramatic"] := by
  refine ⟨by decide, by decide⟩

/-- C10 (amended): on the round-trip scenario
(`duration_seconds = 15`, transcript formed from the two segment texts,
segments `[0,2]` and `[5,8]`), `compute_speech_analysis_metrics` reports
`word_count = 7`; exactly one pause, starting at 2s with duration 3,
classified "dramatic"; a hook-phrase match on "amazing" with category
hyperbole; and an empty CTA-phrase list. -/
theorem C10_round_trip :
    (computeSpeechAnalysisMetrics []
        "hello world watch this amazing trick now"
        [⟨some 0, some 2, some "hello world", none⟩,
         ⟨some 5, some 8, some "watch this amazing trick now", none⟩]
        15).word_count = 7 ∧
    (computeSpeechAnalysisMetrics []
        "hello world watch this amazing trick now"
        [⟨some 0, some 2, some "hello world", none⟩,
         ⟨some 5, some 8, some "watch this amazing trick now", none⟩]
        15).pause_analysis.gaps = [⟨2, 3, "dramatic"⟩] ∧
    ((computeSpeechAnalysisMetrics []
        "hello world watch this amazing trick now"
        [⟨some 0, some 2, some "hello world", none⟩,
         ⟨some 5, some 8, some "watch this amazing trick now", none⟩]
        15).hook_phrases.map (fun h => (h.text, h.type))).contains
      ("amazing", "hyperbole") = true ∧
    (computeSpeechAnalysisMetrics []
        "hello world watch this amazing trick now"
        [⟨some 0, some 2, some "hello world", none⟩,
         ⟨some 5, some 8, some "watch this amazing trick now", none⟩]
        15).cta_phrases = [] := by
  refine ⟨by decide, by decide, by decide, by decide⟩

/-- C2: for every document and purpose, lenient-mode context creation never
raises; when extraction fails it returns exactly the minimal fallback
context (an `error` field, the document's `video_id` defaulted to
"unknown", and a `_validation` block recording the failure); in strict mode
the extraction error is re-raised. -/
theorem C2_create_safe_context (doc : List (String × J))
    (promptName now : String) :
    (∃ ctx, createSafeContext doc promptName false now = .ok ctx) ∧
    (∀ e, extractSafeContextData doc promptName 50 false now = .error e →
      createSafeContext doc promptName false now = .ok
        [("error", .str "Failed to extract ML data"),
          ("video_id", (alookup doc "video_id").getD (.str "unknown")),
          ("_validation", J.obj
            [("validated_at", .str now), ("error", .str e)])]) ∧
    (∀ e, extractSafeContextData doc promptName 50 true now = .error e →
      createSafeContext doc promptName true now = .error e) := by
  refine ⟨?_, ?_, ?_⟩
  · cases hex : extractSafeContextData doc promptName 50 false now with
    | ok ctx => exact ⟨ctx, by rw [createSafeContext, hex]⟩
    | error e =>
      exact ⟨_, by rw [createSafeContext, hex]; rfl⟩
  · intro e he
    rw [createSafeContext, he]
    rfl
  · intro e he
    rw [createSafeContext, he]
    rfl

/-- A concrete application of `C2_create_safe_context`: on a document whose
`timelines` value is a number, lenient extraction fails and the fallback
context is returned, while strict mode re-raises the `TypeError`. -/
theorem C2_create_safe_context_witness :
    createSafeContext [("timelines", J.num 5)] "hook_analysis" false "t" =
      .ok
        [("error", .str "Failed to extract ML data"),
          ("video_id", .str "unknown"),
          ("_validation", J.obj
            [("validated_at", .str "t"),
              ("error", .str
                "TypeError: argument of this type is not iterable")])] ∧
    createSafeContext [("timelines", J.num 5)] "hook_analysis" true "t" =
      .error "TypeError: argument of this type is not iterable" :=
  ⟨(C2_create_safe_context [("timelines", J.num 5)] "hook_analysis" "t").2.1
      _ (by decide),
    (C2_create_safe_context [("timelines", J.num 5)] "hook_analysis" "t").2.2
      _ (by decide)⟩

/-- C4 (amended): entries under keys whose leading dash-segment fails
Python `int()` are inert for the density engine (over its five per-second
modality timelines) and for the emotional engine (provided no such key also
occurs in the gesture timeline): dropping them leaves both engines' outputs
unchanged. -/
theorem C4_unparsable_keys_inert :
    (∀ (t : DensityTimelines) (duration : ℚ),
      computeCreativeDensityAnalysis (filterParseableTimelines t) duration =
        computeCreativeDensityAnalysis t duration) ∧
    (∀ (expressionTimeline : List (String × ExprEntry))
        (speechTimeline : List (String × J))
        (gestureTimeline : List (String × GestureEntry))
        (duration : ℚ) (sampleInterval : ℕ) (intensityThreshold : ℚ),
      (∀ p ∈ expressionTimeline, parseTimestampToSeconds p.1 = none →
        alookup gestureTimeline p.1 = none) →
      computeEmotionalMetrics (filterParseable expressionTimeline)
          speechTimeline gestureTimeline duration sampleInterval
          intensityThreshold =
        computeEmotionalMetrics expressionTimeline speechTimeline
          gestureTimeline duration sampleInterval intensityThreshold) := by
  constructor
  · intro t duration
    simp only [computeCreativeDensityAnalysis, densityArrays_filterParseable]
    rfl
  · intro expressionTimeline speechTimeline gestureTimeline duration
      sampleInterval intensityThreshold h
    simp only [computeEmotionalMetrics, emotionSamples_filterParseable,
      alignCounts_filterParseable expressionTimeline gestureTimeline h]

/-- C4: the original malformed-key robustness claim is false: the malformed
timeline key `"7"` (rejected by the validator's `^\d+-\d+s$` well-formedness
test) still parses under `int(key.split('-')[0])` and lands its entry in
the per-second density arrays, so adding it changes the density engine's
output (`total_creative_elements` moves from 1 to 2). -/
theorem C4_unparsable_keys_inert_counterexample :
    isValidTimestampKey "7" = false ∧
    (computeCreativeDensityAnalysis
      { text := [("0-1s", ⟨some [J.null]⟩), ("7", ⟨some [J.null]⟩)],
        sticker := [], gesture := [], expression := [], object := [],
        sceneChange := [] } 10).total_creative_elements = 2 ∧
    (computeCreativeDensityAnalysis
      { text := [("0-1s", ⟨some [J.null]⟩)],
        sticker := [], gesture := [], expression := [], object := [],
        sceneChange := [] } 10).total_creative_elements = 1 := by
  refine ⟨by decide, by decide, by decide⟩

/-- A concrete application of `C4_unparsable_keys_inert`: dropping the
unparsable-key entry `("bad", sad)` leaves the emotional metrics
unchanged. -/
theorem C4_unparsable_keys_inert_witness :
    computeEmotionalMetrics (filterParseable
        [("0-1s", (⟨some "joy"⟩ : ExprEntry)), ("bad", ⟨some "sad"⟩)])
        [] [] 10 5 (3 / 5) =
      computeEmotionalMetrics
        [("0-1s", (⟨some "joy"⟩ : ExprEntry)), ("bad", ⟨some "sad"⟩)]
        [] [] 10 5 (3 / 5) :=
  C4_unparsable_keys_inert.2 _ _ _ _ _ _ (by decide)

/-- C5: the scene-pacing engine (with no object or camera timelines, where
it is total) reports an `acceleration_score` equal to `accelerationScoreOf`
on its tracked cuts, and that score is `0` with no cuts in either half,
`1` with none in the first half but some in the second, and `(m − n)/n`
with `n > 0` first-half and `m` second-half cuts; no division by zero
occurs (the zero-denominator cases are the explicit `0`/`1` branches). -/
theorem C5_acceleration_score (sceneTimeline : List (String × SceneEntry))
    (videoDuration : ℚ) :
    ∃ out, computeScenePacingMetrics sceneTimeline videoDuration [] [] =
        .ok out ∧
      out.acceleration_score =
        accelerationScoreOf (sceneCutsOf sceneTimeline) videoDuration ∧
      (firstHalfCutsOf (sceneCutsOf sceneTimeline) videoDuration = 0 →
        secondHalfCutsOf (sceneCutsOf sceneTimeline) videoDuration = 0 →
        out.acceleration_score = 0) ∧
      (firstHalfCutsOf (sceneCutsOf sceneTimeline) videoDuration = 0 →
        1 ≤ secondHalfCutsOf (sceneCutsOf sceneTimeline) videoDuration →
        out.acceleration_score = 1) ∧
      (0 < firstHalfCutsOf (sceneCutsOf sceneTimeline) videoDuration →
        out.acceleration_score =
          ((secondHalfCutsOf (sceneCutsOf sceneTimeline) videoDuration : ℚ)
              - (firstHalfCutsOf (sceneCutsOf sceneTimeline) videoDuration
                : ℚ)) /
            (firstHalfCutsOf (sceneCutsOf sceneTimeline) videoDuration
              : ℚ)) := by
  refine ⟨_, rfl, rfl, ?_, ?_, ?_⟩
  · intro h1 h2
    show accelerationScoreOf (sceneCutsOf sceneTimeline) videoDuration = 0
    rw [accelerationScoreOf]
    simp only [h1, h2]
    rfl
  · intro h1 h2
    show accelerationScoreOf (sceneCutsOf sceneTimeline) videoDuration = 1
    rw [accelerationScoreOf]
    simp only [h1]
    rw [if_neg (by omega), if_neg (by omega)]
  · intro h1
    show accelerationScoreOf (sceneCutsOf sceneTimeline) videoDuration = _
    rw [accelerationScoreOf]
    rw [if_pos h1]

/-- A concrete application of `C5_acceleration_score`: one cut in the
second half and none in the first gives acceleration score exactly 1. -/
theorem C5_acceleration_score_witness :
    accelerationScoreOf
      (sceneCutsOf [("6-7s", (⟨some "scene_change", none⟩ : SceneEntry))])
      10 = 1 := by
  obtain ⟨out, hok, hacc, h0, h1, hpos⟩ := C5_acceleration_score
    [("6-7s", (⟨some "scene_change", none⟩ : SceneEntry))] 10
  rw [← hacc]
  exact h1 (by decide) (by decide)

/-- C1 (amended): whenever `_sample_timeline` returns (rather than raising
`ValueError`/`ZeroDivisionError`) under a bound `M ≥ 1`, its output holds
at most `2M − 1` entries (the stride `max(1, len // M)` rounds down, so up
to `2M − 1` — not `M` — entries survive). -/
theorem C1_sample_timeline_size (tl : List (String × J)) (maxEntries : ℕ)
    (out : List (String × J)) (hM : 1 ≤ maxEntries)
    (h : sampleTimeline tl maxEntries = .ok out) :
    out.length ≤ 2 * maxEntries - 1 := by
  rw [sampleTimeline] at h
  split at h
  · next hlen =>
    cases h
    omega
  · next hlen =>
    split at h
    · cases h
    · next keyed hmap =>
      rw [if_neg (by omega)] at h
      cases h
      have hk : keyed.length = tl.length := length_mapExcept _ tl keyed hmap
      have hs : ((sortStable (fun a b => decide (a.1 < b.1)) keyed).map
          Prod.snd).length = tl.length := by
        rw [List.length_map, length_sortStable, hk]
      calc (pyDictOfPairs (everyNth ((sortStable
              (fun a b => decide (a.1 < b.1)) keyed).map Prod.snd)
              (max 1 (((sortStable (fun a b => decide (a.1 < b.1))
                keyed).map Prod.snd).length / maxEntries)))).length
          ≤ (everyNth ((sortStable (fun a b => decide (a.1 < b.1))
              keyed).map Prod.snd)
              (max 1 (((sortStable (fun a b => decide (a.1 < b.1))
                keyed).map Prod.snd).length / maxEntries))).length :=
            length_pyDictOfPairs _
        _ ≤ 2 * maxEntries - 1 := by
            rw [length_everyNth _ (le_max_left _ _), hs]
            exact sample_div_le tl.length maxEntries hM (by omega)

/-- A concrete application of `C1_sample_timeline_size`: three entries
sampled with bound 2 all survive (stride 1), and 3 ≤ 2·2 − 1. -/
theorem C1_sample_timeline_size_witness :
    1 ≤ 2 ∧
    sampleTimeline [("0-1s", J.null), ("1-2s", J.null), ("2-3s", J.null)]
        2 =
      .ok [("0-1s", J.null), ("1-2s", J.null), ("2-3s", J.null)] ∧
    ([("0-1s", J.null), ("1-2s", J.null), ("2-3s", J.null)] :
        List (String × J)).length ≤ 2 * 2 - 1 :=
  ⟨by decide, by decide,
    C1_sample_timeline_size
      [("0-1s", J.null), ("1-2s", J.null), ("2-3s", J.null)] 2
      [("0-1s", J.null), ("1-2s", J.null), ("2-3s", J.null)]
      (by decide) (by decide)⟩

/-- C1: the bounded-output claim as stated is false: with bound `M = 2`
and three entries the stride is `max(1, 3 // 2) = 1`, so all three entries
survive and the output exceeds `M`. -/
theorem C1_sample_timeline_size_counterexample :
    (sampleTimeline [("0-1s", J.null), ("1-2s", J.null), ("2-3s", J.null)]
        2).map List.length = .ok 3 ∧ ¬ (3 ≤ 2) := by
  refine ⟨by decide, by decide⟩

/-- C3: `compute_emotional_metrics` does not return normally once the
peaks have two or more inter-peak spacings: line 762 evaluates the bare
name `variance`, which is undefined in the module, so the function raises
`NameError` instead of reporting any `peak_rhythm`; three "happy"
expression windows over a 15-second video produce three peaks, two
spacings, and the crash. -/
theorem C3_variance_name_error :
    computeEmotionalMetrics
      [("0-1s", (⟨some "happy"⟩ : ExprEntry)), ("5-6s", ⟨some "happy"⟩),
        ("10-11s", ⟨some "happy"⟩)] [] [] 15 5 (3 / 5) =
      .error "NameError: name 'variance' is not defined" := by
  rfl

/-- C9: whenever the string "Swipe up for more!" occurs as a string leaf
anywhere under a document's `timelines` mapping, the suspicious-pattern
scan returns normally and reports at least one warning whose text contains
"swipe up" (the match is case-insensitive: the scan lower-cases the JSON
dump before searching). -/
theorem C9_swipe_up_detected (data : List (String × J))
    (tll : List (String × J)) (nm : String) (tl : J)
    (htl : alookup data "timelines" = some (.obj tll))
    (hmem : (nm, tl) ∈ tll)
    (hleaf : hasLeafJ "Swipe up for more!" tl = true) :
    ∃ ws, checkSuspiciousPatterns data = .ok ws ∧
      ∃ w ∈ ws, strContains w "swipe up" = true := by
  have h1 : dumpsStr "Swipe up for more!" <:+: dumpsJ tl :=
    dumpsJ_of_hasLeaf _ tl hleaf
  have h2 : dumpsJ tl <:+: dumpsObj tll := dumpsObj_mem tll nm tl hmem
  have h23 : dumpsJ tl <:+: dumpsJ (.obj tll) := by
    rw [dumpsJ]
    exact infix_of_wrap lbrace [rbrace] h2
  have h4 : ("timelines", J.obj tll) ∈ data := mem_of_alookup data _ _ htl
  have h5 : dumpsJ (.obj tll) <:+: dumpsObj data :=
    dumpsObj_mem data "timelines" (.obj tll) h4
  have h6 : dumpsJ (.obj tll) <:+: dumpsJ (.obj data) :=
    infix_of_wrap lbrace [rbrace] h5
  have hchain : dumpsStr "Swipe up for more!" <:+: dumpsJ (.obj data) :=
    h1.trans (h23.trans h6)
  have hsw : "swipe up".toList <:+:
      (dumpsStr "Swipe up for more!").map Char.toLower := by decide
  have hdata : strContains (pyLower (String.mk (dumpsJ (.obj data))))
      "swipe up" = true :=
    strContains_lower_of_infix _ _ (hsw.trans (hchain.map Char.toLower))
  have htlc : strContains (pyLower (String.mk (dumpsJ tl))) "swipe up" =
      true :=
    strContains_lower_of_infix _ _ (hsw.trans (h1.map Char.toLower))
  have hf : ∀ (acc : List String) (p : String),
      (if strContains (pyLower (String.mk (dumpsJ (.obj data)))) p then
        match alookup data "timelines" with
        | some tls => do
          let items ← jItems tls
          pure (acc ++ items.filterMap (fun (t : String × J) =>
            if strContains (pyLower (String.mk (dumpsJ t.2))) p then
              some ("'" ++ p ++ "' found in " ++ t.1)
            else none))
        | none => pure (acc ++ ["'" ++ p ++ "' found in data"])
      else pure acc) =
      .ok (acc ++
        (if strContains (pyLower (String.mk (dumpsJ (.obj data)))) p then
          tll.filterMap (fun (t : String × J) =>
            if strContains (pyLower (String.mk (dumpsJ t.2))) p then
              some ("'" ++ p ++ "' found in " ++ t.1)
            else none)
        else [])) := by
    intro acc p
    cases hc : strContains (pyLower (String.mk (dumpsJ (.obj data)))) p with
    | false =>
      rw [if_neg Bool.false_ne_true, if_neg Bool.false_ne_true,
        List.append_nil]
      rfl
    | true =>
      rw [if_pos rfl, if_pos rfl, htl]
      rfl
  simp only [checkSuspiciousPatterns]
  obtain ⟨ws, hws, hsub, hmem2⟩ := foldlM_extend_ok _ _ hf
    testerSuspiciousPatterns []
  refine ⟨ws, hws, ?_⟩
  have hmsg : ("'" ++ "swipe up" ++ "' found in " ++ nm) ∈
      (if strContains (pyLower (String.mk (dumpsJ (.obj data)))) "swipe up"
        then tll.filterMap (fun (t : String × J) =>
          if strContains (pyLower (String.mk (dumpsJ t.2))) "swipe up" then
            some ("'" ++ "swipe up" ++ "' found in " ++ t.1)
          else none)
        else []) := by
    rw [if_pos hdata]
    exact List.mem_filterMap.mpr ⟨(nm, tl), hmem, by rw [if_pos htlc]⟩
  exact ⟨_, hmem2 "swipe up" (by decide) _ hmsg, strContains_found_msg nm⟩

/-- A concrete application of `C9_swipe_up_detected`: a speech timeline
carrying the text "Swipe up for more!" triggers a "swipe up" warning. -/
theorem C9_swipe_up_detected_witness :
    ∃ ws, checkSuspiciousPatterns
        [("timelines", J.obj [("speechTimeline", J.obj
          [("0-1s", J.obj [("text", J.str "Swipe up for more!")])])])] =
        .ok ws ∧
      ∃ w ∈ ws, strContains w "swipe up" = true :=
  C9_swipe_up_detected
    [("timelines", J.obj [("speechTimeline", J.obj
      [("0-1s", J.obj [("text", J.str "Swipe up for more!")])])])]
    [("speechTimeline", J.obj
      [("0-1s", J.obj [("text", J.str "Swipe up for more!")])])]
    "speechTimeline"
    (J.obj [("0-1s", J.obj [("text", J.str "Swipe up for more!")])])
    (by decide) (by decide) (by decide)

theorem append_ne_append (b1 b2 : String) (i : ℕ)
    (h1 : i < b1.data.length) (h2 : i < b2.data.length)
    (hne : b1.data[i]? ≠ b2.data[i]?) (x y : String) :
    b1 ++ x ≠ b2 ++ y := by
  intro h
  apply hne
  have hd : b1.data ++ x.data = b2.data ++ y.data := by
    rw [← String.data_append, ← String.data_append, h]
  calc b1.data[i]? = (b1.data ++ x.data)[i]? :=
        (List.getElem?_append_left h1).symm
    _ = (b2.data ++ y.data)[i]? := by rw [hd]
    _ = b2.data[i]? := List.getElem?_append_left h2

theorem count_missing_field (doc : List (String × J)) :
    ∀ f ∈ requiredFields,
      (requiredFields.filterMap (fun g =>
        if dictHasKey doc g then none
        else some ("Missing required field: " ++ g))).count
        ("Missing required field: " ++ f) =
        (if dictHasKey doc f then 0 else 1) := by
  intro f hf
  rw [requiredFields] at hf
  fin_cases hf <;>
  · by_cases h1 : dictHasKey doc "video_id" = true <;>
    by_cases h2 : dictHasKey doc "timelines" = true <;>
    by_cases h3 : dictHasKey doc "static_metadata" = true <;>
    by_cases h4 : dictHasKey doc "duration_seconds" = true <;>
    simp [requiredFields, h1, h2, h3, h4, List.count_cons, List.count_nil]

theorem validate_timeline_scan_ok (tll : List (String × J)) :
    ∃ i2, expectedTimelines.foldlM (fun acc name => do
        let present ← jIn name (J.obj tll)
        if !present then
          pure (acc ++ ["Missing timeline: " ++ name])
        else do
          let v ← jIndexKey (J.obj tll) name
          if v.isObj then pure acc
          else pure (acc ++
            ["Invalid timeline format: " ++ name ++ " should be dict"])) []
      = .ok i2 ∧
      ∀ f : String, i2.count ("Missing required field: " ++ f) = 0 := by
  refine foldlM_ok_invariant
    (fun s => ∀ f : String, s.count ("Missing required field: " ++ f) = 0)
    _ expectedTimelines [] (fun f => rfl) ?_
  intro s name hname hP
  simp only [jIn, pyBind_ok]
  cases hpres : dictHasKey tll name with
  | false =>
    rw [if_pos (show (!false) = true from rfl)]
    refine ⟨s ++ ["Missing timeline: " ++ name], rfl, ?_⟩
    intro f
    rw [List.count_append, hP f]
    have hne : ("Missing required field: " ++ f) ∉
        ["Missing timeline: " ++ name] := by
      intro hm
      rcases List.mem_singleton.mp hm with heq
      exact append_ne_append "Missing timeline: "
        "Missing required field: " 8 (by decide) (by decide) (by decide)
        name f heq.symm
    rw [List.count_eq_zero.mpr hne]
  | true =>
    rw [if_neg (by simp)]
    obtain ⟨v, hv⟩ := alookup_isSome_of_hasKey tll name hpres
    simp only [jIndexKey, hv, pyBind_ok]
    cases hobj2 : v.isObj with
    | true =>
      rw [if_pos rfl]
      exact ⟨s, rfl, hP⟩
    | false =>
      rw [if_neg (by simp)]
      refine ⟨_, rfl, ?_⟩
      intro f
      rw [List.count_append, hP f]
      have hne : ("Missing required field: " ++ f) ∉
          ["Invalid timeline format: " ++ name ++ " should be dict"] := by
        intro hm
        rcases List.mem_singleton.mp hm with heq
        exact append_ne_append "Invalid timeline format: "
          "Missing required field: " 0 (by decide) (by decide) (by decide)
          (name ++ " should be dict") f heq.symm
      rw [List.count_eq_zero.mpr hne]

theorem validate_stats_scan_ok (mdl : List (String × J)) :
    ∃ i3, (do
        let hasStats ← jIn "stats" (J.obj mdl)
        if hasStats then do
          let sv ← jIndexKey (J.obj mdl) "stats"
          if sv.isObj then pure ([] : List String)
          else pure ["Invalid stats format in static_metadata"]
        else pure ([] : List String)) = .ok i3 ∧
      ∀ f : String, i3.count ("Missing required field: " ++ f) = 0 := by
  simp only [jIn, pyBind_ok]
  cases hst : dictHasKey mdl "stats" with
  | false =>
    rw [if_neg (by simp)]
    exact ⟨[], rfl, fun f => rfl⟩
  | true =>
    rw [if_pos rfl]
    obtain ⟨sv, hsv⟩ := alookup_isSome_of_hasKey mdl "stats" hst
    simp only [jIndexKey, hsv, pyBind_ok]
    cases hobj : sv.isObj with
    | true =>
      rw [if_pos rfl]
      exact ⟨[], rfl, fun f => rfl⟩
    | false =>
      rw [if_neg (by simp)]
      refine ⟨_, rfl, ?_⟩
      intro f
      have hne : ("Missing required field: " ++ f) ∉
          ["Invalid stats format in static_metadata"] := by
        intro hm
        rcases List.mem_singleton.mp hm with heq
        exact str_ne_append "Invalid stats format in static_metadata"
          "Missing required field: " 0 (by decide) (by decide) f heq.symm
      rw [List.count_eq_zero.mpr hne]

theorem validate_assemble (doc : List (String × J)) (i2 i3 : List String)
    (h2 : ∀ f : String, i2.count ("Missing required field: " ++ f) = 0)
    (h3 : ∀ f : String, i3.count ("Missing required field: " ++ f) = 0) :
    (∀ f ∈ requiredFields,
      ((requiredFields.filterMap (fun g =>
          if dictHasKey doc g then none
          else some ("Missing required field: " ++ g))) ++ i2 ++ i3).count
        ("Missing required field: " ++ f) =
        (if dictHasKey doc f then 0 else 1)) ∧
    ((((requiredFields.filterMap (fun g =>
          if dictHasKey doc g then none
          else some ("Missing required field: " ++ g))) ++ i2 ++ i3).isEmpty
        = true) ↔
      (((requiredFields.filterMap (fun g =>
          if dictHasKey doc g then none
          else some ("Missing required field: " ++ g))) ++ i2 ++ i3) =
        [])) := by
  constructor
  · intro f hf
    rw [List.count_append, List.count_append, h2 f, h3 f]
    simpa using count_missing_field doc f hf
  · exact List.isEmpty_iff

/-- Packaging step for the C6 theorem: the computed issue list together
with the two count facts gives the claim's conclusion. -/
theorem validate_package (doc : List (String × J)) (i2 i3 : List String)
    (h2 : ∀ f : String, i2.count ("Missing required field: " ++ f) = 0)
    (h3 : ∀ f : String, i3.count ("Missing required field: " ++ f) = 0)
    (heq : validateUnifiedAnalysis doc = .ok
      ((((requiredFields.filterMap (fun g =>
          if dictHasKey doc g then none
          else some ("Missing required field: " ++ g))) ++ i2 ++
          i3).isEmpty),
        ((requiredFields.filterMap (fun g =>
          if dictHasKey doc g then none
          else some ("Missing required field: " ++ g))) ++ i2 ++ i3))) :
    ∃ r : Bool × List String, validateUnifiedAnalysis doc = .ok r ∧
      (∀ f ∈ requiredFields,
        r.2.count ("Missing required field: " ++ f) =
          (if dictHasKey doc f then 0 else 1)) ∧
      (r.1 = true ↔ r.2 = []) :=
  ⟨_, heq, (validate_assemble doc i2 i3 h2 h3).1,
    (validate_assemble doc i2 i3 h2 h3).2⟩

/-- Zero "Missing required field" hits in the invalid-stats message. -/
theorem count_stats_msg (f : String) :
    (["Invalid stats format in static_metadata"] : List String).count
      ("Missing required field: " ++ f) = 0 := by
  apply List.count_eq_zero.mpr
  intro hm
  rcases List.mem_singleton.mp hm with heq
  exact str_ne_append "Invalid stats format in static_metadata"
    "Missing required field: " 0 (by decide) (by decide) f heq.symm

/-- C6 (amended): on any document whose `timelines` and `static_metadata`
values, when present, are dicts, `validate_unified_analysis` returns
`(ok, issues)` without aborting at the first problem; `issues` contains
exactly one "Missing required field: f" string for each absent required
field and none for the present ones; and `ok` is true iff `issues` is
empty.  (On other documents the `in` membership test on a non-container
value raises `TypeError` — see the counterexample.) -/
theorem C6_validate_missing_fields (doc : List (String × J))
    (htl : ∀ v, alookup doc "timelines" = some v → v.isObj = true)
    (hmd : ∀ v, alookup doc "static_metadata" = some v → v.isObj = true) :
    ∃ r : Bool × List String, validateUnifiedAnalysis doc = .ok r ∧
      (∀ f ∈ requiredFields,
        r.2.count ("Missing required field: " ++ f) =
          (if dictHasKey doc f then 0 else 1)) ∧
      (r.1 = true ↔ r.2 = []) := by
  cases halk : alookup doc "timelines" with
  | none =>
    cases halk2 : alookup doc "static_metadata" with
    | none =>
      exact validate_package doc [] [] (fun f => rfl) (fun f => rfl)
        (by simp only [validateUnifiedAnalysis, halk, pyBind_ok]
            simp only [halk2, pyBind_ok]
            rfl)
    | some md =>
      have hobj2 := hmd md halk2
      cases md with
      | obj mdl =>
        cases hst : dictHasKey mdl "stats" with
        | false =>
          exact validate_package doc [] [] (fun f => rfl) (fun f => rfl)
            (by simp only [validateUnifiedAnalysis, halk, pyBind_ok]
                simp only [halk2, jIn, hst, pyBind_ok]
                rfl)
        | true =>
          obtain ⟨sv, hsv⟩ := alookup_isSome_of_hasKey mdl "stats" hst
          cases hsvobj : sv.isObj with
          | true =>
            exact validate_package doc [] [] (fun f => rfl) (fun f => rfl)
              (by simp only [validateUnifiedAnalysis, halk, pyBind_ok]
                  simp only [halk2, jIn, hst, jIndexKey, hsv, hsvobj,
                    pyBind_ok]
                  rfl)
          | false =>
            exact validate_package doc []
              ["Invalid stats format in static_metadata"] (fun f => rfl)
              count_stats_msg
              (by simp only [validateUnifiedAnalysis, halk, pyBind_ok]
                  simp only [halk2, jIn, hst, jIndexKey, hsv, hsvobj,
                    pyBind_ok]
                  rfl)
      | null => simp [J.isObj] at hobj2
      | bool b => simp [J.isObj] at hobj2
      | num q => simp [J.isObj] at hobj2
      | str s => simp [J.isObj] at hobj2
      | arr l => simp [J.isObj] at hobj2
  | some tls =>
    have hobj := htl tls halk
    cases tls with
    | obj tll =>
      obtain ⟨i2, h2eq, h2P⟩ := validate_timeline_scan_ok tll
      cases halk2 : alookup doc "static_metadata" with
      | none =>
        exact validate_package doc i2 [] h2P (fun f => rfl)
          (by simp only [validateUnifiedAnalysis, halk, h2eq, pyBind_ok]
              simp only [halk2, pyBind_ok]
              rfl)
      | some md =>
        have hobj2 := hmd md halk2
        cases md with
        | obj mdl =>
          cases hst : dictHasKey mdl "stats" with
          | false =>
            exact validate_package doc i2 [] h2P (fun f => rfl)
              (by simp only [validateUnifiedAnalysis, halk, h2eq, pyBind_ok]
                  simp only [halk2, jIn, hst, pyBind_ok]
                  rfl)
          | true =>
            obtain ⟨sv, hsv⟩ := alookup_isSome_of_hasKey mdl "stats" hst
            cases hsvobj : sv.isObj with
            | true =>
              exact validate_package doc i2 [] h2P (fun f => rfl)
                (by simp only [validateUnifiedAnalysis, halk, h2eq, pyBind_ok]
                    simp only [halk2, jIn, hst, jIndexKey, hsv, hsvobj,
                      pyBind_ok]
                    rfl)
            | false =>
              exact validate_package doc i2
                ["Invalid stats format in static_metadata"] h2P
                count_stats_msg
                (by simp only [validateUnifiedAnalysis, halk, h2eq, pyBind_ok]
                    simp only [halk2, jIn, hst, jIndexKey, hsv, hsvobj,
                      pyBind_ok]
                    rfl)
        | null => simp [J.isObj] at hobj2
        | bool b => simp [J.isObj] at hobj2
        | num q => simp [J.isObj] at hobj2
        | str s => simp [J.isObj] at hobj2
        | arr l => simp [J.isObj] at hobj2
    | null => simp [J.isObj] at hobj
    | bool b => simp [J.isObj] at hobj
    | num q => simp [J.isObj] at hobj
    | str s => simp [J.isObj] at hobj
    | arr l => simp [J.isObj] at hobj

/-- C6: the claim is false for arbitrary documents: when the `timelines`
value is a number, the `in` membership test raises `TypeError`, so
`validate_unified_analysis` aborts instead of returning `(ok, issues)`. -/
theorem C6_validate_missing_fields_counterexample :
    validateUnifiedAnalysis
      [("video_id", J.str "v"), ("timelines", J.num 5),
        ("static_metadata", J.obj []), ("duration_seconds", J.num 10)] =
      .error "TypeError: argument of this type is not iterable" := by
  decide

/-- A concrete application of `C6_validate_missing_fields`: a document
missing only `duration_seconds` gets exactly one missing-field issue (for
that field, none for the present three) and is not marked ok. -/
theorem C6_validate_missing_fields_witness :
    ∃ r : Bool × List String,
      validateUnifiedAnalysis
        [("video_id", J.str "v"), ("timelines", J.obj []),
          ("static_metadata", J.obj [])] = .ok r ∧
      (∀ f ∈ requiredFields,
        r.2.count ("Missing required field: " ++ f) =
          (if dictHasKey
            [("video_id", J.str "v"), ("timelines", J.obj []),
              ("static_metadata", J.obj [])] f then 0 else 1)) ∧
      (r.1 = true ↔ r.2 = []) :=
  C6_validate_missing_fields
    [("video_id", J.str "v"), ("timelines", J.obj []),
      ("static_metadata", J.obj [])]
    (by decide) (by decide)

theorem consistency_tail_ok (tls2 mds : J) (i1 i2 : List String)
    (mdl tll : List (String × J))
    (hmds : mds = .obj mdl) (htls2 : tls2 = .obj tll) :
    ∃ i3a i3b, (do
      let mdObjects ← jGetD mds "objects" .null
      let issues3a ←
        if jTruthy mdObjects then do
          let tlObject ← jGetD tls2 "objectTimeline" .null
          pure (if ¬ jTruthy tlObject then
            ["Objects mentioned in summary but objectTimeline is empty"]
            else [])
        else pure []
      let mdSpeech ← jGetD mds "speech" .null
      let issues3b ←
        if jTruthy mdSpeech then do
          let tlSpeech ← jGetD tls2 "speechTimeline" .null
          pure (if ¬ jTruthy tlSpeech then
            ["Speech mentioned in summary but speechTimeline is empty"]
            else [])
        else pure []
      pure (i1 ++ i2 ++ issues3a ++ issues3b) : PyEx (List String)) =
      .ok (i1 ++ i2 ++ i3a ++ i3b) := by
  subst hmds
  subst htls2
  simp only [jGetD, pyBind_ok]
  by_cases t1 : jTruthy ((alookup mdl "objects").getD J.null) = true <;>
  by_cases t2 : jTruthy ((alookup mdl "speech").getD J.null) = true <;>
  exact ⟨_, _, by
    simp only [jGetD, pyPure_eq, pyBind_ok, t1, t2, reduceIte]
    rfl⟩

theorem foldl_hom_ext {γ δ : Type} (f g : δ → γ → δ)
    (h : ∀ a c, f a c = g a c) (l : List γ) (init : δ) :
    l.foldl f init = l.foldl g init := by
  induction l generalizing init with
  | nil => rfl
  | cons c cs ih => rw [List.foldl_cons, List.foldl_cons, h, ih]

theorem mem_durationIssues (tll : List (String × J)) (dq : ℚ) (dur : J)
    (nm : String) (entries : List (String × J)) (msg : String)
    (hmem : (nm, J.obj entries) ∈ tll)
    (hmsg : msg ∈ entries.filterMap (fun (e : String × J) =>
      let ts := e.1
      if strContains ts "-" && endsWithS ts then
        match pySplit ts '-' with
        | _ :: p2 :: _ =>
          match pyIntOfStr? (rstripS p2) with
          | some endTime =>
            if (endTime : ℚ) > dq then
              some (beyondDurationMsg nm ts dur)
            else none
          | none => none
        | _ => none
      else none)) :
    msg ∈ durationIssues tll dq dur := by
  rw [durationIssues, foldl_hom_ext _ (fun acc (t : String × J) =>
    acc ++ (match t.2 with
      | J.obj es => es.filterMap (fun (e : String × J) =>
        let ts := e.1
        if strContains ts "-" && endsWithS ts then
          match pySplit ts '-' with
          | _ :: p2 :: _ =>
            match pyIntOfStr? (rstripS p2) with
            | some endTime =>
              if (endTime : ℚ) > dq then
                some (beyondDurationMsg t.1 ts dur)
              else none
            | none => none
          | _ => none
        else none)
      | _ => []))]
  · exact mem_foldl_append _ tll [] msg
      (Or.inr ⟨(nm, J.obj entries), hmem, by simpa using hmsg⟩)
  · intro a c
    rcases c with ⟨k2, v2⟩
    cases v2 <;> simp

/-- C8: the consistency check's duration scan is sound on the concrete
scenario — duration 10 with a single `"15-16s"` entry yields exactly the
one beyond-duration issue, whose text cites the timeline name and the
timestamp — and in general every entry of a dict-typed timeline whose key
contains a dash, ends in `s`, and whose post-dash segment parses to an
integer end bound exceeding a positive duration contributes its
beyond-duration issue to the returned list. -/
theorem C8_beyond_duration (data : List (String × J)) (d tf fp : ℚ)
    (tll entries : List (String × J)) (nm key : String) (v : J)
    (p1 p2 : String) (rest : List String) (b : ℤ)
    (hd : alookup data "duration_seconds" = some (.num d))
    (htf : (alookup data "total_frames").getD (.num 0) = .num tf)
    (hfp : (alookup data "fps").getD (.num 1) = .num fp)
    (htl2 : (alookup data "timelines").getD (.obj []) = .obj tll)
    (hms : ∀ v2, alookup data "metadata_summary" = some v2 →
      v2.isObj = true)
    (hdpos : d > 0)
    (hmem : (nm, J.obj entries) ∈ tll)
    (hkey : (key, v) ∈ entries)
    (hdash : strContains key "-" = true)
    (hends : endsWithS key = true)
    (hsplit : pySplit key '-' = p1 :: p2 :: rest)
    (hb : pyIntOfStr? (rstripS p2) = some b)
    (hbd : (b : ℚ) > d) :
    (∃ issues, checkDataConsistency data = .ok issues ∧
      beyondDurationMsg nm key (J.num d) ∈ issues) ∧
    checkDataConsistency
        [("duration_seconds", J.num 10), ("timelines", J.obj
          [("objectTimeline", J.obj [("15-16s", J.obj [])])])] =
      .ok [beyondDurationMsg "objectTimeline" "15-16s" (J.num 10)] ∧
    strContains (beyondDurationMsg "objectTimeline" "15-16s" (J.num 10))
      "objectTimeline" = true ∧
    strContains (beyondDurationMsg "objectTimeline" "15-16s" (J.num 10))
      "15-16s" = true := by
  refine ⟨?_, by decide, by decide, by decide⟩
  have hmdl : ∃ mdl, (alookup data "metadata_summary").getD (.obj []) =
      J.obj mdl := by
    cases halk : alookup data "metadata_summary" with
    | none => exact ⟨[], rfl⟩
    | some md =>
      have hobj := hms md halk
      cases md with
      | obj mdl => exact ⟨mdl, rfl⟩
      | null => simp [J.isObj] at hobj
      | bool b2 => simp [J.isObj] at hobj
      | num q => simp [J.isObj] at hobj
      | str s => simp [J.isObj] at hobj
      | arr l => simp [J.isObj] at hobj
  obtain ⟨mdl, hmdl⟩ := hmdl
  obtain ⟨i3a, i3b, htail⟩ := consistency_tail_ok (J.obj tll) (J.obj mdl)
    (durationIssues tll d (J.num d))
    (frameIssues (J.num tf) tf (if fp > 0 then pyTrunc (d * fp) else 0))
    mdl tll rfl rfl
  refine ⟨durationIssues tll d (J.num d) ++
    frameIssues (J.num tf) tf (if fp > 0 then pyTrunc (d * fp) else 0) ++
    i3a ++ i3b, ?_, ?_⟩
  · simp only [checkDataConsistency, hd, Option.getD_some, jAsNum,
      pyBind_ok, if_pos hdpos, htl2, jItems, htf, hfp, hmdl, pyPure_eq]
    exact htail
  · apply List.mem_append_left
    apply List.mem_append_left
    apply List.mem_append_left
    apply mem_durationIssues tll d (J.num d) nm entries _ hmem
    apply List.mem_filterMap.mpr
    refine ⟨(key, v), hkey, ?_⟩
    simp only [hdash, hends, Bool.and_self, hsplit, hb, reduceIte,
      if_pos hbd]

/-- A concrete application of `C8_beyond_duration` at the claim's own
scenario: duration 10 and the single key "15-16s". -/
theorem C8_beyond_duration_witness :
    (∃ issues, checkDataConsistency
        [("duration_seconds", J.num 10), ("timelines", J.obj
          [("objectTimeline", J.obj [("15-16s", J.obj [])])])] =
        .ok issues ∧
      beyondDurationMsg "objectTimeline" "15-16s" (J.num 10) ∈ issues) ∧
    checkDataConsistency
        [("duration_seconds", J.num 10), ("timelines", J.obj
          [("objectTimeline", J.obj [("15-16s", J.obj [])])])] =
      .ok [beyondDurationMsg "objectTimeline" "15-16s" (J.num 10)] ∧
    strContains (beyondDurationMsg "objectTimeline" "15-16s" (J.num 10))
      "objectTimeline" = true ∧
    strContains (beyondDurationMsg "objectTimeline" "15-16s" (J.num 10))
      "15-16s" = true :=
  C8_beyond_duration
    [("duration_seconds", J.num 10), ("timelines", J.obj
      [("objectTimeline", J.obj [("15-16s", J.obj [])])])]
    10 0 1
    [("objectTimeline", J.obj [("15-16s", J.obj [])])]
    [("15-16s", J.obj [])]
    "objectTimeline" "15-16s" (J.obj []) "15" "16s" [] 16
    (by decide) (by decide) (by decide) (by decide) (by decide) (by decide)
    (by decide) (by decide) (by decide) (by decide) (by decide) (by decide)
    (by decide)

end ClaimTheorems
